import Mathlib

/-!
Shallow embedding of `caladrius/graph/heron/heron_graph_builder.py`
(class `HeronGraphBuilder`) and the plan documents it consumes.

The remote Gremlin graph store is modelled as an explicit value of type
`GraphDB` that every builder step threads through; `addV`/`addE` append to
its vertex/edge lists and traversal queries are list filters.  Python
exceptions are modelled by each step returning, together with the graph as
mutated up to the failure point, an `Option BuildError` (`none` = success):
remote mutations issued before an exception persist, exactly as in the
Python code, which has no rollback.

`parse_instance_name`, `get_logical_plan` and `get_physical_plan` are
imported by the source from `caladrius.graph.heron.heron_tracker`, a module
that is not part of the given sources; following the spec they are treated
as external collaborators: the two plan fetchers become parameters (the
plans are passed in), and the instance-name decoder becomes a function
parameter of type `ParseFn`.
-/

/-- A Gremlin property value: the builder stores strings and integers. -/
inductive PValue where
  | s (v : String)
  | i (v : Int)
deriving DecidableEq

/-- A vertex of the property graph: a numeric handle (assigned by the
store), a label and a property list. -/
structure GVertex where
  vid : Nat
  label : String
  props : List (String × PValue)
deriving DecidableEq

/-- A directed edge of the property graph. -/
structure GEdge where
  src : Nat
  dst : Nat
  label : String
  props : List (String × PValue)
deriving DecidableEq

/-- The state of the external graph store: a fresh-handle counter and the
lists of vertices and edges in insertion order. -/
structure GraphDB where
  nextId : Nat
  vertices : List GVertex
  edges : List GEdge
deriving DecidableEq

def GraphDB.empty : GraphDB := ⟨0, [], []⟩

/-- `g.addV label props`: the `addV(label).property(...)....next()` Gremlin
call — appends a fresh vertex and returns its handle. -/
def GraphDB.addV (g : GraphDB) (label : String) (props : List (String × PValue)) :
    GraphDB × Nat :=
  (⟨g.nextId + 1, g.vertices ++ [⟨g.nextId, label, props⟩], g.edges⟩, g.nextId)

/-- `g.addE src label props dst`: the `V(src).addE(label).property(...).to(dst)`
Gremlin call — appends one directed edge. -/
def GraphDB.addE (g : GraphDB) (src : Nat) (label : String)
    (props : List (String × PValue)) (dst : Nat) : GraphDB :=
  ⟨g.nextId, g.vertices, g.edges ++ [⟨src, dst, label, props⟩]⟩

/-- Property test used by `.has(key, value)` traversal steps. -/
def GVertex.hasProp (v : GVertex) (key : String) (val : PValue) : Bool :=
  v.props.lookup key == some val

/-- Python exceptions that the builder can raise, plus the spec's names for
the externally raised ones (`parseError` for `parse_instance_name`,
`lookupError` for an edge-target traversal that matches no vertex). -/
inductive BuildError where
  | keyError (key : String)
  | indexError
  | valueError
  | lookupError
  | parseError (token : String)
deriving DecidableEq

/-- One entry of `physical_plan["stmgrs"]` (only the fields the builder
reads). -/
structure StMgrData where
  id : String
  host : String
  port : Int
  shell_port : Int
deriving DecidableEq

/-- One entry of `physical_plan["instances"]` (only the field the builder
reads: `"stmgrId"`). -/
structure InstanceData where
  stmgrId : String
deriving DecidableEq

/-- The physical plan document, with Python dicts as association lists in
insertion order (`stmgrs` keeps only the values, which is all the builder
iterates over). -/
structure PhysicalPlan where
  stmgrs : List StMgrData
  spouts : List (String × List String)
  bolts : List (String × List String)
  instances : List (String × InstanceData)
deriving DecidableEq

/-- Logical-plan data of one spout component (the fields read at vertex
creation). -/
structure SpoutData where
  spout_type : String
  spout_source : String
deriving DecidableEq

/-- One declared input stream of a bolt component. -/
structure InputStream where
  component_name : String
  stream_name : String
  grouping : String
deriving DecidableEq

/-- Logical-plan data of one bolt component. -/
structure BoltData where
  inputs : List InputStream
deriving DecidableEq

/-- The logical plan document. -/
structure LogicalPlan where
  spouts : List (String × SpoutData)
  bolts : List (String × BoltData)
deriving DecidableEq

/-- Result of decoding an instance-name token: its container index and task
index. -/
structure ParsedInstance where
  container : Int
  task_id : Int
deriving DecidableEq

/-- Modelled from the spec: `parse_instance_name` lives in
`caladrius.graph.heron.heron_tracker`, which is not among the given
sources; the spec (§4.1 InstanceNameParser) fixes only its contract —
decode a token into container and task index, or fail with a ParseError —
so the builder is parameterized by the decoding function. -/
def ParseFn : Type := String → Except BuildError ParsedInstance

/-- Python `str.split(sep)` for a one-character separator: splits at every
occurrence and keeps empty segments. -/
def pySplitChar (sep : Char) : List Char → List (List Char)
  | [] => [[]]
  | c :: rest =>
    match pySplitChar sep rest with
    | [] => [[]]
    | seg :: segs => if c = sep then [] :: seg :: segs else (c :: seg) :: segs

/-- `s.split("-")` as used on broker ids at line 58. -/
def pySplitDash (s : String) : List String :=
  (pySplitChar '-' s.data).map (fun cs => ⟨cs⟩)

/-- Leading/trailing-whitespace removal, as `int()` applies to its
argument. -/
def pyStrip (cs : List Char) : List Char :=
  ((cs.dropWhile Char.isWhitespace).reverse.dropWhile Char.isWhitespace).reverse

/-- Python `int(s)` on an optionally signed decimal string, surrounding
whitespace allowed (the underscore-separator and non-ASCII-digit cases of
CPython are not modelled). -/
def pyInt (s : String) : Option Int :=
  let core : List Char → Option Int := fun ds =>
    if ds ≠ [] ∧ ds.all Char.isDigit then
      some (Int.ofNat (ds.foldl (fun a c => a * 10 + (c.toNat - 48)) 0))
    else none
  match pyStrip s.data with
  | '+' :: rest => core rest
  | '-' :: rest => (core rest).map (fun n => -n)
  | t => core t

/-- Line 58: `int(stream_manager["id"].split("-")[1])` — Python raises
IndexError when the split has no second segment and ValueError when that
segment is not an integer literal. -/
def stmgrContainerId (id : String) : Except BuildError Int :=
  match (pySplitDash id).get? 1 with
  | none => .error .indexError
  | some seg =>
    match pyInt seg with
    | none => .error .valueError
    | some n => .ok n

/-- Property list of a `stream_manager` vertex (lines 47–55). -/
def stmgrProps (tid tref : String) (sm : StMgrData) : List (String × PValue) :=
  [("id", .s sm.id), ("host", .s sm.host), ("port", .i sm.port),
   ("shell_port", .i sm.shell_port), ("topology_id", .s tid),
   ("topology_ref", .s tref)]

/-- Property list of a `container` vertex (lines 62–66). -/
def containerProps (tid tref : String) (c : Int) : List (String × PValue) :=
  [("id", .i c), ("topology_id", .s tid), ("topology_ref", .s tref)]

/-- The loop body of `_create_stream_managers` (lines 41–71), recursing over
`physical_plan["stmgrs"].values()`.  Note the `stream_manager` vertex is
added before the container index of its id is decoded. -/
def createStreamManagersLoop (tid tref : String) (g : GraphDB) :
    List StMgrData → GraphDB × Option BuildError
  | [] => (g, none)
  | sm :: rest =>
    let p := g.addV "stream_manager" (stmgrProps tid tref sm)
    match stmgrContainerId sm.id with
    | .error e => (p.1, some e)
    | .ok container =>
      let q := p.1.addV "container" (containerProps tid tref container)
      createStreamManagersLoop tid tref (q.1.addE p.2 "is_within" [] q.2) rest

/-- `HeronGraphBuilder._create_stream_managers` (lines 35–71). -/
def create_stream_managers (tid tref : String) (pp : PhysicalPlan)
    (g : GraphDB) : GraphDB × Option BuildError :=
  createStreamManagersLoop tid tref g pp.stmgrs

/-- Property list of a `spout` vertex (lines 93–104). -/
def spoutProps (tid tref spout_name : String) (inst : ParsedInstance)
    (stream_manager_id : String) (sd : SpoutData) : List (String × PValue) :=
  [("container", .i inst.container), ("task_id", .i inst.task_id),
   ("component", .s spout_name), ("stream_manager", .s stream_manager_id),
   ("spout_type", .s sd.spout_type), ("spout_source", .s sd.spout_source),
   ("topology_id", .s tid), ("topology_ref", .s tref)]

/-- Property list of a `bolt` vertex (lines 138–145). -/
def boltProps (tid tref bolt_name : String) (inst : ParsedInstance)
    (stream_manager_id : String) : List (String × PValue) :=
  [("container", .i inst.container), ("task_id", .i inst.task_id),
   ("component", .s bolt_name), ("stream_manager", .s stream_manager_id),
   ("topology_id", .s tid), ("topology_ref", .s tref)]

/-- The edge-target traversal of lines 108–113 / 149–154:
`V().hasLabel("container").has("topology_id", tid).has("topology_ref", tref).has("id", c)`. -/
def containerQuery (tid tref : String) (c : Int) (g : GraphDB) : List GVertex :=
  g.vertices.filter (fun v =>
    v.label == "container" && v.hasProp "topology_id" (.s tid)
      && v.hasProp "topology_ref" (.s tref) && v.hasProp "id" (.i c))

/-- The inner loop of `_create_spouts` (lines 83–114) over the instance
tokens of one logical spout component: decode the token, look up the
assigned stream manager, add the `spout` vertex, then add an `is_within`
edge to the first container vertex matching the decoded container index
(failing with the spec's LookupError when none matches). -/
def createSpoutInstancesLoop (parse : ParseFn) (tid tref spout_name : String)
    (sd : SpoutData) (pp : PhysicalPlan) (g : GraphDB) :
    List String → GraphDB × Option BuildError
  | [] => (g, none)
  | instance_name :: rest =>
    match parse instance_name with
    | .error e => (g, some e)
    | .ok inst =>
      match pp.instances.lookup instance_name with
      | none => (g, some (.keyError instance_name))
      | some idata =>
        let p := g.addV "spout"
          (spoutProps tid tref spout_name inst idata.stmgrId sd)
        match (containerQuery tid tref inst.container p.1).head? with
        | none => (p.1, some .lookupError)
        | some cont =>
          createSpoutInstancesLoop parse tid tref spout_name sd pp
            (p.1.addE p.2 "is_within" [] cont.vid) rest

/-- The outer loop of `_create_spouts` (lines 80–114) over
`logical_plan["spouts"].items()`; `physical_spouts[spout_name]` raises
KeyError when the component is absent from `physical_plan["spouts"]`. -/
def createSpoutsLoop (parse : ParseFn) (tid tref : String) (pp : PhysicalPlan)
    (g : GraphDB) : List (String × SpoutData) → GraphDB × Option BuildError
  | [] => (g, none)
  | (spout_name, sd) :: rest =>
    match pp.spouts.lookup spout_name with
    | none => (g, some (.keyError spout_name))
    | some toks =>
      match createSpoutInstancesLoop parse tid tref spout_name sd pp g toks with
      | (g1, some e) => (g1, some e)
      | (g1, none) => createSpoutsLoop parse tid tref pp g1 rest

/-- `HeronGraphBuilder._create_spouts` (lines 73–114). -/
def create_spouts (parse : ParseFn) (tid tref : String) (pp : PhysicalPlan)
    (lp : LogicalPlan) (g : GraphDB) : GraphDB × Option BuildError :=
  createSpoutsLoop parse tid tref pp g lp.spouts

/-- The inner loop of `_create_bolts` (lines 127–155), symmetric to the
spout case without the spout-specific properties. -/
def createBoltInstancesLoop (parse : ParseFn) (tid tref bolt_name : String)
    (pp : PhysicalPlan) (g : GraphDB) :
    List String → GraphDB × Option BuildError
  | [] => (g, none)
  | instance_name :: rest =>
    match parse instance_name with
    | .error e => (g, some e)
    | .ok inst =>
      match pp.instances.lookup instance_name with
      | none => (g, some (.keyError instance_name))
      | some idata =>
        let p := g.addV "bolt" (boltProps tid tref bolt_name inst idata.stmgrId)
        match (containerQuery tid tref inst.container p.1).head? with
        | none => (p.1, some .lookupError)
        | some cont =>
          createBoltInstancesLoop parse tid tref bolt_name pp
            (p.1.addE p.2 "is_within" [] cont.vid) rest

/-- The outer loop of `_create_bolts` (lines 124–155) over the keys of
`logical_plan["bolts"]` (the bolt data is not read here). -/
def createBoltsLoop (parse : ParseFn) (tid tref : String) (pp : PhysicalPlan)
    (g : GraphDB) : List (String × BoltData) → GraphDB × Option BuildError
  | [] => (g, none)
  | (bolt_name, _) :: rest =>
    match pp.bolts.lookup bolt_name with
    | none => (g, some (.keyError bolt_name))
    | some toks =>
      match createBoltInstancesLoop parse tid tref bolt_name pp g toks with
      | (g1, some e) => (g1, some e)
      | (g1, none) => createBoltsLoop parse tid tref pp g1 rest

/-- `HeronGraphBuilder._create_bolts` (lines 117–155). -/
def create_bolts (parse : ParseFn) (tid tref : String) (pp : PhysicalPlan)
    (lp : LogicalPlan) (g : GraphDB) : GraphDB × Option BuildError :=
  createBoltsLoop parse tid tref pp g lp.bolts

/-- The instance query of lines 171–176 / 179–184:
`V().has("topology_id", tid).has("topology_ref", tref).has("component", c)`
(note: no label filter in the source). -/
def componentQuery (tid tref comp : String) (g : GraphDB) : List GVertex :=
  g.vertices.filter (fun v =>
    v.hasProp "topology_id" (.s tid) && v.hasProp "topology_ref" (.s tref)
      && v.hasProp "component" (.s comp))

/-- Property list of a `logically_connected` edge (lines 190–192). -/
def lcProps (st : InputStream) : List (String × PValue) :=
  [("stream_name", .s st.stream_name), ("grouping", .s st.grouping)]

/-- The nested loops of lines 186–193: for every destination, for every
source, add one `logically_connected` edge from source to destination. -/
def crossAddE (g : GraphDB) (st : InputStream)
    (dests sources : List GVertex) : GraphDB :=
  dests.foldl (fun gd d =>
    sources.foldl (fun gs s =>
      gs.addE s.vid "logically_connected" (lcProps st) d.vid) gd) g

/-- The loop of lines 178–193 over `bolt_data["inputs"]`: query the source
instances of the declared component, then add the all-pairs edges. -/
def inputsLoop (tid tref : String) (dests : List GVertex) (g : GraphDB) :
    List InputStream → GraphDB
  | [] => g
  | st :: rest =>
    inputsLoop tid tref dests
      (crossAddE g st dests (componentQuery tid tref st.component_name g)) rest

/-- The loop of lines 165–193 over `logical_plan["bolts"].items()`: query
the destination instances of the bolt once, then handle each input. -/
def createLogicalConnectionsLoop (tid tref : String) (g : GraphDB) :
    List (String × BoltData) → GraphDB
  | [] => g
  | (bolt_name, bd) :: rest =>
    createLogicalConnectionsLoop tid tref
      (inputsLoop tid tref (componentQuery tid tref bolt_name g) g bd.inputs) rest

/-- `HeronGraphBuilder._create_logical_connections` (lines 157–193); this
step issues no fallible operation. -/
def create_logical_connections (tid tref : String) (lp : LogicalPlan)
    (g : GraphDB) : GraphDB :=
  createLogicalConnectionsLoop tid tref g lp.bolts

/-- The read-only query of lines 201–208: all (source, destination) pairs
where a `bolt`- or `spout`-labelled vertex of the snapshot has an outgoing
`logically_connected` edge. -/
def logicalPairsQuery (tid tref : String) (g : GraphDB) :
    List (GVertex × GVertex) :=
  (g.vertices.filter (fun v =>
    v.hasProp "topology_id" (.s tid) && v.hasProp "topology_ref" (.s tref)
      && (v.label == "bolt" || v.label == "spout"))).flatMap
    (fun v => (g.edges.filter (fun e =>
        e.label == "logically_connected" && e.src == v.vid)).filterMap
      (fun e => (g.vertices.find? (fun w => w.vid == e.dst)).map
        (fun w => (v, w))))

/-- `HeronGraphBuilder._create_physical_connections` (lines 195–217): it
fetches the logically connected pairs and then iterates over them with a
loop whose body consists of two unimplemented TODO comments, so the graph
is returned unchanged. -/
def create_physical_connections (tid tref : String) (pp : PhysicalPlan)
    (lp : LogicalPlan) (g : GraphDB) : GraphDB :=
  let logical_pairs := logicalPairsQuery tid tref g
  let _ := logical_pairs
  g

/-- `HeronGraphBuilder.build_topology_graph` (lines 219–243).  The plan
fetches (`get_logical_plan` / `get_physical_plan`, external PlanSource)
are modelled by passing the two plans in; the four creation steps run in
source order, each one's exception propagating unmodified with the graph
as mutated so far (`_create_physical_connections` is never invoked). -/
def build_topology_graph (parse : ParseFn) (tid tref : String)
    (lp : LogicalPlan) (pp : PhysicalPlan) (g : GraphDB) :
    GraphDB × Option BuildError :=
  match create_stream_managers tid tref pp g with
  | (g1, some e) => (g1, some e)
  | (g1, none) =>
    match create_spouts parse tid tref pp lp g1 with
    | (g2, some e) => (g2, some e)
    | (g2, none) =>
      match create_bolts parse tid tref pp lp g2 with
      | (g3, some e) => (g3, some e)
      | (g3, none) => (create_logical_connections tid tref lp g3, none)

/-! Basic monotonicity: every builder step only appends to the store. -/

/-- `g'` extends `g`: both stores' contents of `g` are still present, in
their original positions. -/
def GraphDB.GrowsFrom (g' g : GraphDB) : Prop :=
  (∃ vs, g'.vertices = g.vertices ++ vs) ∧ (∃ es, g'.edges = g.edges ++ es)

theorem grows_refl (g : GraphDB) : g.GrowsFrom g :=
  ⟨⟨[], (List.append_nil _).symm⟩, ⟨[], (List.append_nil _).symm⟩⟩

theorem grows_trans {g1 g2 g3 : GraphDB} (h : g2.GrowsFrom g1)
    (h' : g3.GrowsFrom g2) : g3.GrowsFrom g1 := by
  obtain ⟨⟨vs, hv⟩, ⟨es, he⟩⟩ := h
  obtain ⟨⟨vs', hv'⟩, ⟨es', he'⟩⟩ := h'
  exact ⟨⟨vs ++ vs', by rw [hv', hv, List.append_assoc]⟩,
         ⟨es ++ es', by rw [he', he, List.append_assoc]⟩⟩

theorem addV_grows (g : GraphDB) (lab : String) (props : List (String × PValue)) :
    (g.addV lab props).1.GrowsFrom g :=
  ⟨⟨[⟨g.nextId, lab, props⟩], rfl⟩, ⟨[], (List.append_nil _).symm⟩⟩

theorem addE_grows (g : GraphDB) (src : Nat) (lab : String)
    (props : List (String × PValue)) (dst : Nat) :
    (g.addE src lab props dst).GrowsFrom g :=
  ⟨⟨[], (List.append_nil _).symm⟩, ⟨[⟨src, dst, lab, props⟩], rfl⟩⟩

theorem mem_vertices_mono {g' g : GraphDB} (h : g'.GrowsFrom g) {v : GVertex}
    (hv : v ∈ g.vertices) : v ∈ g'.vertices := by
  obtain ⟨⟨vs, hveq⟩, -⟩ := h
  rw [hveq]
  exact List.mem_append_left _ hv

/-! Branch equations for the loop bodies, used by all later inductions. -/

theorem smLoop_nil (tid tref : String) (g : GraphDB) :
    createStreamManagersLoop tid tref g [] = (g, none) := rfl

theorem smLoop_cons_err {e : BuildError} (tid tref : String) (g : GraphDB)
    (sm : StMgrData) (rest : List StMgrData)
    (h : stmgrContainerId sm.id = .error e) :
    createStreamManagersLoop tid tref g (sm :: rest) =
      ((g.addV "stream_manager" (stmgrProps tid tref sm)).1, some e) := by
  simp [createStreamManagersLoop, h]

theorem smLoop_cons_ok {c : Int} (tid tref : String) (g : GraphDB)
    (sm : StMgrData) (rest : List StMgrData)
    (h : stmgrContainerId sm.id = .ok c) :
    createStreamManagersLoop tid tref g (sm :: rest) =
      createStreamManagersLoop tid tref
        (((g.addV "stream_manager" (stmgrProps tid tref sm)).1.addV "container"
            (containerProps tid tref c)).1.addE
          (g.addV "stream_manager" (stmgrProps tid tref sm)).2 "is_within" []
          ((g.addV "stream_manager" (stmgrProps tid tref sm)).1.addV "container"
            (containerProps tid tref c)).2) rest := by
  simp [createStreamManagersLoop, h]

theorem spoutInner_nil (parse : ParseFn) (tid tref sn : String) (sd : SpoutData)
    (pp : PhysicalPlan) (g : GraphDB) :
    createSpoutInstancesLoop parse tid tref sn sd pp g [] = (g, none) := rfl

theorem spoutInner_cons_perr {e : BuildError} (parse : ParseFn)
    (tid tref sn : String) (sd : SpoutData) (pp : PhysicalPlan) (g : GraphDB)
    (tok : String) (rest : List String) (h : parse tok = .error e) :
    createSpoutInstancesLoop parse tid tref sn sd pp g (tok :: rest) =
      (g, some e) := by
  simp [createSpoutInstancesLoop, h]

theorem spoutInner_cons_keyerr {inst : ParsedInstance} (parse : ParseFn)
    (tid tref sn : String) (sd : SpoutData) (pp : PhysicalPlan) (g : GraphDB)
    (tok : String) (rest : List String) (h : parse tok = .ok inst)
    (h' : pp.instances.lookup tok = none) :
    createSpoutInstancesLoop parse tid tref sn sd pp g (tok :: rest) =
      (g, some (.keyError tok)) := by
  simp [createSpoutInstancesLoop, h, h']

theorem spoutInner_cons_lookuperr {inst : ParsedInstance}
    {idata : InstanceData} (parse : ParseFn) (tid tref sn : String)
    (sd : SpoutData) (pp : PhysicalPlan) (g : GraphDB) (tok : String)
    (rest : List String) (h : parse tok = .ok inst)
    (h' : pp.instances.lookup tok = some idata)
    (h'' : (containerQuery tid tref inst.container
      (g.addV "spout" (spoutProps tid tref sn inst idata.stmgrId sd)).1).head? = none) :
    createSpoutInstancesLoop parse tid tref sn sd pp g (tok :: rest) =
      ((g.addV "spout" (spoutProps tid tref sn inst idata.stmgrId sd)).1,
        some .lookupError) := by
  simp [createSpoutInstancesLoop, h, h', h'']

theorem spoutInner_cons_ok {inst : ParsedInstance} {idata : InstanceData}
    {cont : GVertex} (parse : ParseFn) (tid tref sn : String) (sd : SpoutData)
    (pp : PhysicalPlan) (g : GraphDB) (tok : String) (rest : List String)
    (h : parse tok = .ok inst) (h' : pp.instances.lookup tok = some idata)
    (h'' : (containerQuery tid tref inst.container
      (g.addV "spout" (spoutProps tid tref sn inst idata.stmgrId sd)).1).head? = some cont) :
    createSpoutInstancesLoop parse tid tref sn sd pp g (tok :: rest) =
      createSpoutInstancesLoop parse tid tref sn sd pp
        ((g.addV "spout" (spoutProps tid tref sn inst idata.stmgrId sd)).1.addE
          (g.addV "spout" (spoutProps tid tref sn inst idata.stmgrId sd)).2
          "is_within" [] cont.vid) rest := by
  simp [createSpoutInstancesLoop, h, h', h'']

theorem spoutOuter_nil (parse : ParseFn) (tid tref : String)
    (pp : PhysicalPlan) (g : GraphDB) :
    createSpoutsLoop parse tid tref pp g [] = (g, none) := rfl

theorem spoutOuter_cons_keyerr (parse : ParseFn) (tid tref sn : String)
    (sd : SpoutData) (pp : PhysicalPlan) (g : GraphDB)
    (rest : List (String × SpoutData)) (h : pp.spouts.lookup sn = none) :
    createSpoutsLoop parse tid tref pp g ((sn, sd) :: rest) =
      (g, some (.keyError sn)) := by
  simp [createSpoutsLoop, h]

theorem spoutOuter_cons_fail {toks : List String} {g1 : GraphDB}
    {e : BuildError} (parse : ParseFn) (tid tref sn : String) (sd : SpoutData)
    (pp : PhysicalPlan) (g : GraphDB) (rest : List (String × SpoutData))
    (h : pp.spouts.lookup sn = some toks)
    (h' : createSpoutInstancesLoop parse tid tref sn sd pp g toks = (g1, some e)) :
    createSpoutsLoop parse tid tref pp g ((sn, sd) :: rest) = (g1, some e) := by
  simp [createSpoutsLoop, h, h']

theorem spoutOuter_cons_ok {toks : List String} {g1 : GraphDB}
    (parse : ParseFn) (tid tref sn : String) (sd : SpoutData)
    (pp : PhysicalPlan) (g : GraphDB) (rest : List (String × SpoutData))
    (h : pp.spouts.lookup sn = some toks)
    (h' : createSpoutInstancesLoop parse tid tref sn sd pp g toks = (g1, none)) :
    createSpoutsLoop parse tid tref pp g ((sn, sd) :: rest) =
      createSpoutsLoop parse tid tref pp g1 rest := by
  simp [createSpoutsLoop, h, h']

theorem boltInner_nil (parse : ParseFn) (tid tref bn : String)
    (pp : PhysicalPlan) (g : GraphDB) :
    createBoltInstancesLoop parse tid tref bn pp g [] = (g, none) := rfl

theorem boltInner_cons_perr {e : BuildError} (parse : ParseFn)
    (tid tref bn : String) (pp : PhysicalPlan) (g : GraphDB) (tok : String)
    (rest : List String) (h : parse tok = .error e) :
    createBoltInstancesLoop parse tid tref bn pp g (tok :: rest) =
      (g, some e) := by
  simp [createBoltInstancesLoop, h]

theorem boltInner_cons_keyerr {inst : ParsedInstance} (parse : ParseFn)
    (tid tref bn : String) (pp : PhysicalPlan) (g : GraphDB) (tok : String)
    (rest : List String) (h : parse tok = .ok inst)
    (h' : pp.instances.lookup tok = none) :
    createBoltInstancesLoop parse tid tref bn pp g (tok :: rest) =
      (g, some (.keyError tok)) := by
  simp [createBoltInstancesLoop, h, h']

theorem boltInner_cons_lookuperr {inst : ParsedInstance} {idata : InstanceData}
    (parse : ParseFn) (tid tref bn : String) (pp : PhysicalPlan) (g : GraphDB)
    (tok : String) (rest : List String) (h : parse tok = .ok inst)
    (h' : pp.instances.lookup tok = some idata)
    (h'' : (containerQuery tid tref inst.container
      (g.addV "bolt" (boltProps tid tref bn inst idata.stmgrId)).1).head? = none) :
    createBoltInstancesLoop parse tid tref bn pp g (tok :: rest) =
      ((g.addV "bolt" (boltProps tid tref bn inst idata.stmgrId)).1,
        some .lookupError) := by
  simp [createBoltInstancesLoop, h, h', h'']

theorem boltInner_cons_ok {inst : ParsedInstance} {idata : InstanceData}
    {cont : GVertex} (parse : ParseFn) (tid tref bn : String)
    (pp : PhysicalPlan) (g : GraphDB) (tok : String) (rest : List String)
    (h : parse tok = .ok inst) (h' : pp.instances.lookup tok = some idata)
    (h'' : (containerQuery tid tref inst.container
      (g.addV "bolt" (boltProps tid tref bn inst idata.stmgrId)).1).head? = some cont) :
    createBoltInstancesLoop parse tid tref bn pp g (tok :: rest) =
      createBoltInstancesLoop parse tid tref bn pp
        ((g.addV "bolt" (boltProps tid tref bn inst idata.stmgrId)).1.addE
          (g.addV "bolt" (boltProps tid tref bn inst idata.stmgrId)).2
          "is_within" [] cont.vid) rest := by
  simp [createBoltInstancesLoop, h, h', h'']

theorem boltOuter_nil (parse : ParseFn) (tid tref : String) (pp : PhysicalPlan)
    (g : GraphDB) : createBoltsLoop parse tid tref pp g [] = (g, none) := rfl

theorem boltOuter_cons_keyerr (parse : ParseFn) (tid tref bn : String)
    (bd : BoltData) (pp : PhysicalPlan) (g : GraphDB)
    (rest : List (String × BoltData)) (h : pp.bolts.lookup bn = none) :
    createBoltsLoop parse tid tref pp g ((bn, bd) :: rest) =
      (g, some (.keyError bn)) := by
  simp [createBoltsLoop, h]

theorem boltOuter_cons_fail {toks : List String} {g1 : GraphDB}
    {e : BuildError} (parse : ParseFn) (tid tref bn : String) (bd : BoltData)
    (pp : PhysicalPlan) (g : GraphDB) (rest : List (String × BoltData))
    (h : pp.bolts.lookup bn = some toks)
    (h' : createBoltInstancesLoop parse tid tref bn pp g toks = (g1, some e)) :
    createBoltsLoop parse tid tref pp g ((bn, bd) :: rest) = (g1, some e) := by
  simp [createBoltsLoop, h, h']

theorem boltOuter_cons_ok {toks : List String} {g1 : GraphDB} (parse : ParseFn)
    (tid tref bn : String) (bd : BoltData) (pp : PhysicalPlan) (g : GraphDB)
    (rest : List (String × BoltData)) (h : pp.bolts.lookup bn = some toks)
    (h' : createBoltInstancesLoop parse tid tref bn pp g toks = (g1, none)) :
    createBoltsLoop parse tid tref pp g ((bn, bd) :: rest) =
      createBoltsLoop parse tid tref pp g1 rest := by
  simp [createBoltsLoop, h, h']

theorem inputsLoop_nil (tid tref : String) (dests : List GVertex)
    (g : GraphDB) : inputsLoop tid tref dests g [] = g := rfl

theorem inputsLoop_cons (tid tref : String) (dests : List GVertex)
    (g : GraphDB) (st : InputStream) (rest : List InputStream) :
    inputsLoop tid tref dests g (st :: rest) =
      inputsLoop tid tref dests
        (crossAddE g st dests (componentQuery tid tref st.component_name g))
        rest := rfl

theorem lcLoop_nil (tid tref : String) (g : GraphDB) :
    createLogicalConnectionsLoop tid tref g [] = g := rfl

theorem lcLoop_cons (tid tref : String) (g : GraphDB) (bn : String)
    (bd : BoltData) (rest : List (String × BoltData)) :
    createLogicalConnectionsLoop tid tref g ((bn, bd) :: rest) =
      createLogicalConnectionsLoop tid tref
        (inputsLoop tid tref (componentQuery tid tref bn g) g bd.inputs) rest := rfl

theorem build_fail_sm {g1 : GraphDB} {e : BuildError} (parse : ParseFn)
    (tid tref : String) (lp : LogicalPlan) (pp : PhysicalPlan) (g : GraphDB)
    (h : create_stream_managers tid tref pp g = (g1, some e)) :
    build_topology_graph parse tid tref lp pp g = (g1, some e) := by
  simp [build_topology_graph, h]

theorem build_fail_spouts {g1 g2 : GraphDB} {e : BuildError} (parse : ParseFn)
    (tid tref : String) (lp : LogicalPlan) (pp : PhysicalPlan) (g : GraphDB)
    (h : create_stream_managers tid tref pp g = (g1, none))
    (h' : create_spouts parse tid tref pp lp g1 = (g2, some e)) :
    build_topology_graph parse tid tref lp pp g = (g2, some e) := by
  simp [build_topology_graph, h, h']

theorem build_fail_bolts {g1 g2 g3 : GraphDB} {e : BuildError}
    (parse : ParseFn) (tid tref : String) (lp : LogicalPlan)
    (pp : PhysicalPlan) (g : GraphDB)
    (h : create_stream_managers tid tref pp g = (g1, none))
    (h' : create_spouts parse tid tref pp lp g1 = (g2, none))
    (h'' : create_bolts parse tid tref pp lp g2 = (g3, some e)) :
    build_topology_graph parse tid tref lp pp g = (g3, some e) := by
  simp [build_topology_graph, h, h', h'']

theorem build_all_ok {g1 g2 g3 : GraphDB} (parse : ParseFn)
    (tid tref : String) (lp : LogicalPlan) (pp : PhysicalPlan) (g : GraphDB)
    (h : create_stream_managers tid tref pp g = (g1, none))
    (h' : create_spouts parse tid tref pp lp g1 = (g2, none))
    (h'' : create_bolts parse tid tref pp lp g2 = (g3, none)) :
    build_topology_graph parse tid tref lp pp g =
      (create_logical_connections tid tref lp g3, none) := by
  simp [build_topology_graph, h, h', h'']

/-! Monotonicity of every step. -/

theorem smLoop_grows (tid tref : String) :
    ∀ (l : List StMgrData) (g : GraphDB),
      (createStreamManagersLoop tid tref g l).1.GrowsFrom g := by
  intro l
  induction l with
  | nil => intro g; rw [smLoop_nil]; exact grows_refl g
  | cons sm rest ih =>
    intro g
    cases h : stmgrContainerId sm.id with
    | error e => rw [smLoop_cons_err tid tref g sm rest h]; exact addV_grows g _ _
    | ok c =>
      rw [smLoop_cons_ok tid tref g sm rest h]
      exact grows_trans
        (grows_trans (addV_grows g _ _)
          (grows_trans (addV_grows _ _ _) (addE_grows _ _ _ _ _))) (ih _)

theorem spoutInner_grows (parse : ParseFn) (tid tref sn : String)
    (sd : SpoutData) (pp : PhysicalPlan) :
    ∀ (l : List String) (g : GraphDB),
      (createSpoutInstancesLoop parse tid tref sn sd pp g l).1.GrowsFrom g := by
  intro l
  induction l with
  | nil => intro g; rw [spoutInner_nil]; exact grows_refl g
  | cons tok rest ih =>
    intro g
    cases hp : parse tok with
    | error e => rw [spoutInner_cons_perr parse tid tref sn sd pp g tok rest hp]; exact grows_refl g
    | ok inst =>
      cases hi : pp.instances.lookup tok with
      | none =>
        rw [spoutInner_cons_keyerr parse tid tref sn sd pp g tok rest hp hi]
        exact grows_refl g
      | some idata =>
        cases hc : (containerQuery tid tref inst.container
            (g.addV "spout" (spoutProps tid tref sn inst idata.stmgrId sd)).1).head? with
        | none =>
          rw [spoutInner_cons_lookuperr parse tid tref sn sd pp g tok rest hp hi hc]
          exact addV_grows g _ _
        | some cont =>
          rw [spoutInner_cons_ok parse tid tref sn sd pp g tok rest hp hi hc]
          exact grows_trans
            (grows_trans (addV_grows g _ _) (addE_grows _ _ _ _ _)) (ih _)

theorem spoutOuter_grows (parse : ParseFn) (tid tref : String)
    (pp : PhysicalPlan) :
    ∀ (l : List (String × SpoutData)) (g : GraphDB),
      (createSpoutsLoop parse tid tref pp g l).1.GrowsFrom g := by
  intro l
  induction l with
  | nil => intro g; rw [spoutOuter_nil]; exact grows_refl g
  | cons p rest ih =>
    intro g
    obtain ⟨sn, sd⟩ := p
    cases hl : pp.spouts.lookup sn with
    | none =>
      rw [spoutOuter_cons_keyerr parse tid tref sn sd pp g rest hl]
      exact grows_refl g
    | some toks =>
      rcases hrun : createSpoutInstancesLoop parse tid tref sn sd pp g toks with ⟨g1, err⟩
      have h1 : g1.GrowsFrom g := by
        have := spoutInner_grows parse tid tref sn sd pp toks g
        rwa [hrun] at this
      cases err with
      | none =>
        rw [spoutOuter_cons_ok parse tid tref sn sd pp g rest hl hrun]
        exact grows_trans h1 (ih g1)
      | some e =>
        rw [spoutOuter_cons_fail parse tid tref sn sd pp g rest hl hrun]
        exact h1

theorem boltInner_grows (parse : ParseFn) (tid tref bn : String)
    (pp : PhysicalPlan) :
    ∀ (l : List String) (g : GraphDB),
      (createBoltInstancesLoop parse tid tref bn pp g l).1.GrowsFrom g := by
  intro l
  induction l with
  | nil => intro g; rw [boltInner_nil]; exact grows_refl g
  | cons tok rest ih =>
    intro g
    cases hp : parse tok with
    | error e => rw [boltInner_cons_perr parse tid tref bn pp g tok rest hp]; exact grows_refl g
    | ok inst =>
      cases hi : pp.instances.lookup tok with
      | none =>
        rw [boltInner_cons_keyerr parse tid tref bn pp g tok rest hp hi]
        exact grows_refl g
      | some idata =>
        cases hc : (containerQuery tid tref inst.container
            (g.addV "bolt" (boltProps tid tref bn inst idata.stmgrId)).1).head? with
        | none =>
          rw [boltInner_cons_lookuperr parse tid tref bn pp g tok rest hp hi hc]
          exact addV_grows g _ _
        | some cont =>
          rw [boltInner_cons_ok parse tid tref bn pp g tok rest hp hi hc]
          exact grows_trans
            (grows_trans (addV_grows g _ _) (addE_grows _ _ _ _ _)) (ih _)

theorem boltOuter_grows (parse : ParseFn) (tid tref : String)
    (pp : PhysicalPlan) :
    ∀ (l : List (String × BoltData)) (g : GraphDB),
      (createBoltsLoop parse tid tref pp g l).1.GrowsFrom g := by
  intro l
  induction l with
  | nil => intro g; rw [boltOuter_nil]; exact grows_refl g
  | cons p rest ih =>
    intro g
    obtain ⟨bn, bd⟩ := p
    cases hl : pp.bolts.lookup bn with
    | none =>
      rw [boltOuter_cons_keyerr parse tid tref bn bd pp g rest hl]
      exact grows_refl g
    | some toks =>
      rcases hrun : createBoltInstancesLoop parse tid tref bn pp g toks with ⟨g1, err⟩
      have h1 : g1.GrowsFrom g := by
        have := boltInner_grows parse tid tref bn pp toks g
        rwa [hrun] at this
      cases err with
      | none =>
        rw [boltOuter_cons_ok parse tid tref bn bd pp g rest hl hrun]
        exact grows_trans h1 (ih g1)
      | some e =>
        rw [boltOuter_cons_fail parse tid tref bn bd pp g rest hl hrun]
        exact h1

theorem foldlAddE_grows (st : InputStream) (d : GVertex) :
    ∀ (ss : List GVertex) (g : GraphDB),
      (ss.foldl (fun gs s =>
        gs.addE s.vid "logically_connected" (lcProps st) d.vid) g).GrowsFrom g := by
  intro ss
  induction ss with
  | nil => intro g; exact grows_refl g
  | cons s srest sih =>
    intro g
    rw [List.foldl_cons]
    exact grows_trans (addE_grows g _ _ _ _) (sih _)

theorem crossAddE_grows (st : InputStream) (sources : List GVertex) :
    ∀ (dests : List GVertex) (g : GraphDB),
      (crossAddE g st dests sources).GrowsFrom g := by
  intro dests
  induction dests with
  | nil => intro g; exact grows_refl g
  | cons d rest ih =>
    intro g
    have h := ih (sources.foldl (fun gs s =>
      gs.addE s.vid "logically_connected" (lcProps st) d.vid) g)
    simp only [crossAddE, List.foldl_cons] at h ⊢
    exact grows_trans (foldlAddE_grows st d sources g) h

theorem inputsLoop_grows (tid tref : String) (dests : List GVertex) :
    ∀ (l : List InputStream) (g : GraphDB),
      (inputsLoop tid tref dests g l).GrowsFrom g := by
  intro l
  induction l with
  | nil => intro g; exact grows_refl g
  | cons st rest ih =>
    intro g
    rw [inputsLoop_cons]
    exact grows_trans (crossAddE_grows st _ dests g) (ih _)

theorem lcLoop_grows (tid tref : String) :
    ∀ (l : List (String × BoltData)) (g : GraphDB),
      (createLogicalConnectionsLoop tid tref g l).GrowsFrom g := by
  intro l
  induction l with
  | nil => intro g; exact grows_refl g
  | cons p rest ih =>
    intro g
    obtain ⟨bn, bd⟩ := p
    rw [lcLoop_cons]
    exact grows_trans (inputsLoop_grows tid tref _ bd.inputs g) (ih _)

theorem build_grows (parse : ParseFn) (tid tref : String) (lp : LogicalPlan)
    (pp : PhysicalPlan) (g : GraphDB) :
    (build_topology_graph parse tid tref lp pp g).1.GrowsFrom g := by
  rcases h1 : create_stream_managers tid tref pp g with ⟨g1, e1⟩
  have hg1 : g1.GrowsFrom g := by
    have := smLoop_grows tid tref pp.stmgrs g
    rwa [show createStreamManagersLoop tid tref g pp.stmgrs =
      create_stream_managers tid tref pp g from rfl, h1] at this
  cases e1 with
  | some e => rw [build_fail_sm parse tid tref lp pp g h1]; exact hg1
  | none =>
    rcases h2 : create_spouts parse tid tref pp lp g1 with ⟨g2, e2⟩
    have hg2 : g2.GrowsFrom g1 := by
      have := spoutOuter_grows parse tid tref pp lp.spouts g1
      rwa [show createSpoutsLoop parse tid tref pp g1 lp.spouts =
        create_spouts parse tid tref pp lp g1 from rfl, h2] at this
    cases e2 with
    | some e =>
      rw [build_fail_spouts parse tid tref lp pp g h1 h2]
      exact grows_trans hg1 hg2
    | none =>
      rcases h3 : create_bolts parse tid tref pp lp g2 with ⟨g3, e3⟩
      have hg3 : g3.GrowsFrom g2 := by
        have := boltOuter_grows parse tid tref pp lp.bolts g2
        rwa [show createBoltsLoop parse tid tref pp g2 lp.bolts =
          create_bolts parse tid tref pp lp g2 from rfl, h3] at this
      cases e3 with
      | some e =>
        rw [build_fail_bolts parse tid tref lp pp g h1 h2 h3]
        exact grows_trans (grows_trans hg1 hg2) hg3
      | none =>
        rw [build_all_ok parse tid tref lp pp g h1 h2 h3]
        exact grows_trans (grows_trans (grows_trans hg1 hg2) hg3)
          (lcLoop_grows tid tref lp.bolts g3)

/-! Tagging of created vertices and shape of created edges. -/

/-- The vertex carries the two snapshot-tagging properties with the build's
values. -/
def taggedV (tid tref : String) (v : GVertex) : Prop :=
  v.props.lookup "topology_id" = some (.s tid) ∧
  v.props.lookup "topology_ref" = some (.s tref)

/-- Every edge the builder can emit: a property-less `is_within` edge or a
`logically_connected` edge whose only properties are the stream name and
grouping. -/
def builderEdgeShape (e : GEdge) : Prop :=
  (e.label = "is_within" ∧ e.props = []) ∨
  (e.label = "logically_connected" ∧ ∃ st, e.props = lcProps st)

theorem taggedV_stmgr (tid tref : String) (n : Nat) (sm : StMgrData) :
    taggedV tid tref ⟨n, "stream_manager", stmgrProps tid tref sm⟩ :=
  ⟨rfl, rfl⟩

theorem taggedV_container (tid tref : String) (n : Nat) (c : Int) :
    taggedV tid tref ⟨n, "container", containerProps tid tref c⟩ :=
  ⟨rfl, rfl⟩

theorem taggedV_spout (tid tref sn smid : String) (n : Nat)
    (inst : ParsedInstance) (sd : SpoutData) :
    taggedV tid tref ⟨n, "spout", spoutProps tid tref sn inst smid sd⟩ :=
  ⟨rfl, rfl⟩

theorem taggedV_bolt (tid tref bn smid : String) (n : Nat)
    (inst : ParsedInstance) :
    taggedV tid tref ⟨n, "bolt", boltProps tid tref bn inst smid⟩ :=
  ⟨rfl, rfl⟩

theorem smLoop_new_vertices (tid tref : String) :
    ∀ (l : List StMgrData) (g : GraphDB) (v : GVertex),
      v ∈ (createStreamManagersLoop tid tref g l).1.vertices →
      v ∈ g.vertices ∨ (taggedV tid tref v ∧
        (v.label = "stream_manager" ∨ v.label = "container")) := by
  intro l
  induction l with
  | nil => intro g v hv; rw [smLoop_nil] at hv; exact .inl hv
  | cons sm rest ih =>
    intro g v hv
    cases h : stmgrContainerId sm.id with
    | error e =>
      rw [smLoop_cons_err tid tref g sm rest h] at hv
      simp only [GraphDB.addV, List.mem_append, List.mem_singleton] at hv
      rcases hv with hv | rfl
      · exact .inl hv
      · exact .inr ⟨taggedV_stmgr tid tref g.nextId sm, .inl rfl⟩
    | ok c =>
      rw [smLoop_cons_ok tid tref g sm rest h] at hv
      rcases ih _ v hv with hv' | hv'
      · simp only [GraphDB.addE, GraphDB.addV, List.mem_append,
          List.mem_singleton] at hv'
        rcases hv' with (hv'' | rfl) | rfl
        · exact .inl hv''
        · exact .inr ⟨taggedV_stmgr tid tref g.nextId sm, .inl rfl⟩
        · exact .inr ⟨taggedV_container tid tref _ c, .inr rfl⟩
      · exact .inr hv'

theorem spoutInner_new_vertices (parse : ParseFn) (tid tref sn : String)
    (sd : SpoutData) (pp : PhysicalPlan) :
    ∀ (l : List String) (g : GraphDB) (v : GVertex),
      v ∈ (createSpoutInstancesLoop parse tid tref sn sd pp g l).1.vertices →
      v ∈ g.vertices ∨ (taggedV tid tref v ∧ v.label = "spout") := by
  intro l
  induction l with
  | nil => intro g v hv; rw [spoutInner_nil] at hv; exact .inl hv
  | cons tok rest ih =>
    intro g v hv
    cases hp : parse tok with
    | error e =>
      rw [spoutInner_cons_perr parse tid tref sn sd pp g tok rest hp] at hv
      exact .inl hv
    | ok inst =>
      cases hi : pp.instances.lookup tok with
      | none =>
        rw [spoutInner_cons_keyerr parse tid tref sn sd pp g tok rest hp hi] at hv
        exact .inl hv
      | some idata =>
        cases hc : (containerQuery tid tref inst.container
            (g.addV "spout" (spoutProps tid tref sn inst idata.stmgrId sd)).1).head? with
        | none =>
          rw [spoutInner_cons_lookuperr parse tid tref sn sd pp g tok rest hp hi hc] at hv
          simp only [GraphDB.addV, List.mem_append, List.mem_singleton] at hv
          rcases hv with hv | rfl
          · exact .inl hv
          · exact .inr ⟨taggedV_spout tid tref sn idata.stmgrId g.nextId inst sd, rfl⟩
        | some cont =>
          rw [spoutInner_cons_ok parse tid tref sn sd pp g tok rest hp hi hc] at hv
          rcases ih _ v hv with hv' | hv'
          · simp only [GraphDB.addE, GraphDB.addV, List.mem_append,
              List.mem_singleton] at hv'
            rcases hv' with hv'' | rfl
            · exact .inl hv''
            · exact .inr ⟨taggedV_spout tid tref sn idata.stmgrId g.nextId inst sd, rfl⟩
          · exact .inr hv'

theorem spoutOuter_new_vertices (parse : ParseFn) (tid tref : String)
    (pp : PhysicalPlan) :
    ∀ (l : List (String × SpoutData)) (g : GraphDB) (v : GVertex),
      v ∈ (createSpoutsLoop parse tid tref pp g l).1.vertices →
      v ∈ g.vertices ∨ (taggedV tid tref v ∧ v.label = "spout") := by
  intro l
  induction l with
  | nil => intro g v hv; rw [spoutOuter_nil] at hv; exact .inl hv
  | cons p rest ih =>
    intro g v hv
    obtain ⟨sn, sd⟩ := p
    cases hl : pp.spouts.lookup sn with
    | none =>
      rw [spoutOuter_cons_keyerr parse tid tref sn sd pp g rest hl] at hv
      exact .inl hv
    | some toks =>
      rcases hrun : createSpoutInstancesLoop parse tid tref sn sd pp g toks with ⟨g1, err⟩
      have hstep : v ∈ g1.vertices → v ∈ g.vertices ∨
          (taggedV tid tref v ∧ v.label = "spout") := by
        intro hv1
        have := spoutInner_new_vertices parse tid tref sn sd pp toks g v
        rw [hrun] at this
        exact this hv1
      cases err with
      | none =>
        rw [spoutOuter_cons_ok parse tid tref sn sd pp g rest hl hrun] at hv
        rcases ih g1 v hv with hv' | hv'
        · exact hstep hv'
        · exact .inr hv'
      | some e =>
        rw [spoutOuter_cons_fail parse tid tref sn sd pp g rest hl hrun] at hv
        exact hstep hv

theorem boltInner_new_vertices (parse : ParseFn) (tid tref bn : String)
    (pp : PhysicalPlan) :
    ∀ (l : List String) (g : GraphDB) (v : GVertex),
      v ∈ (createBoltInstancesLoop parse tid tref bn pp g l).1.vertices →
      v ∈ g.vertices ∨ (taggedV tid tref v ∧ v.label = "bolt") := by
  intro l
  induction l with
  | nil => intro g v hv; rw [boltInner_nil] at hv; exact .inl hv
  | cons tok rest ih =>
    intro g v hv
    cases hp : parse tok with
    | error e =>
      rw [boltInner_cons_perr parse tid tref bn pp g tok rest hp] at hv
      exact .inl hv
    | ok inst =>
      cases hi : pp.instances.lookup tok with
      | none =>
        rw [boltInner_cons_keyerr parse tid tref bn pp g tok rest hp hi] at hv
        exact .inl hv
      | some idata =>
        cases hc : (containerQuery tid tref inst.container
            (g.addV "bolt" (boltProps tid tref bn inst idata.stmgrId)).1).head? with
        | none =>
          rw [boltInner_cons_lookuperr parse tid tref bn pp g tok rest hp hi hc] at hv
          simp only [GraphDB.addV, List.mem_append, List.mem_singleton] at hv
          rcases hv with hv | rfl
          · exact .inl hv
          · exact .inr ⟨taggedV_bolt tid tref bn idata.stmgrId g.nextId inst, rfl⟩
        | some cont =>
          rw [boltInner_cons_ok parse tid tref bn pp g tok rest hp hi hc] at hv
          rcases ih _ v hv with hv' | hv'
          · simp only [GraphDB.addE, GraphDB.addV, List.mem_append,
              List.mem_singleton] at hv'
            rcases hv' with hv'' | rfl
            · exact .inl hv''
            · exact .inr ⟨taggedV_bolt tid tref bn idata.stmgrId g.nextId inst, rfl⟩
          · exact .inr hv'

theorem boltOuter_new_vertices (parse : ParseFn) (tid tref : String)
    (pp : PhysicalPlan) :
    ∀ (l : List (String × BoltData)) (g : GraphDB) (v : GVertex),
      v ∈ (createBoltsLoop parse tid tref pp g l).1.vertices →
      v ∈ g.vertices ∨ (taggedV tid tref v ∧ v.label = "bolt") := by
  intro l
  induction l with
  | nil => intro g v hv; rw [boltOuter_nil] at hv; exact .inl hv
  | cons p rest ih =>
    intro g v hv
    obtain ⟨bn, bd⟩ := p
    cases hl : pp.bolts.lookup bn with
    | none =>
      rw [boltOuter_cons_keyerr parse tid tref bn bd pp g rest hl] at hv
      exact .inl hv
    | some toks =>
      rcases hrun : createBoltInstancesLoop parse tid tref bn pp g toks with ⟨g1, err⟩
      have hstep : v ∈ g1.vertices → v ∈ g.vertices ∨
          (taggedV tid tref v ∧ v.label = "bolt") := by
        intro hv1
        have := boltInner_new_vertices parse tid tref bn pp toks g v
        rw [hrun] at this
        exact this hv1
      cases err with
      | none =>
        rw [boltOuter_cons_ok parse tid tref bn bd pp g rest hl hrun] at hv
        rcases ih g1 v hv with hv' | hv'
        · exact hstep hv'
        · exact .inr hv'
      | some e =>
        rw [boltOuter_cons_fail parse tid tref bn bd pp g rest hl hrun] at hv
        exact hstep hv

theorem crossAddE_vertices (st : InputStream) (sources : List GVertex) :
    ∀ (dests : List GVertex) (g : GraphDB),
      (crossAddE g st dests sources).vertices = g.vertices := by
  have hfold : ∀ (d : GVertex) (ss : List GVertex) (g : GraphDB),
      (ss.foldl (fun gs s =>
        gs.addE s.vid "logically_connected" (lcProps st) d.vid) g).vertices
        = g.vertices := by
    intro d ss
    induction ss with
    | nil => intro g; rfl
    | cons s srest sih => intro g; rw [List.foldl_cons]; exact sih _
  intro dests
  induction dests with
  | nil => intro g; rfl
  | cons d rest ih =>
    intro g
    simp only [crossAddE, List.foldl_cons] at ih ⊢
    rw [ih, hfold]

theorem inputsLoop_vertices (tid tref : String) (dests : List GVertex) :
    ∀ (l : List InputStream) (g : GraphDB),
      (inputsLoop tid tref dests g l).vertices = g.vertices := by
  intro l
  induction l with
  | nil => intro g; rfl
  | cons st rest ih =>
    intro g
    rw [inputsLoop_cons, ih, crossAddE_vertices]

theorem lcLoop_vertices (tid tref : String) :
    ∀ (l : List (String × BoltData)) (g : GraphDB),
      (createLogicalConnectionsLoop tid tref g l).vertices = g.vertices := by
  intro l
  induction l with
  | nil => intro g; rfl
  | cons p rest ih =>
    intro g
    obtain ⟨bn, bd⟩ := p
    rw [lcLoop_cons, ih, inputsLoop_vertices]

theorem smLoop_new_edges (tid tref : String) :
    ∀ (l : List StMgrData) (g : GraphDB) (e : GEdge),
      e ∈ (createStreamManagersLoop tid tref g l).1.edges →
      e ∈ g.edges ∨ builderEdgeShape e := by
  intro l
  induction l with
  | nil => intro g e he; rw [smLoop_nil] at he; exact .inl he
  | cons sm rest ih =>
    intro g e he
    cases h : stmgrContainerId sm.id with
    | error err =>
      rw [smLoop_cons_err tid tref g sm rest h] at he
      exact .inl he
    | ok c =>
      rw [smLoop_cons_ok tid tref g sm rest h] at he
      rcases ih _ e he with he' | he'
      · simp only [GraphDB.addE, GraphDB.addV, List.mem_append,
          List.mem_singleton] at he'
        rcases he' with he'' | rfl
        · exact .inl he''
        · exact .inr (.inl ⟨rfl, rfl⟩)
      · exact .inr he'

theorem spoutInner_new_edges (parse : ParseFn) (tid tref sn : String)
    (sd : SpoutData) (pp : PhysicalPlan) :
    ∀ (l : List String) (g : GraphDB) (e : GEdge),
      e ∈ (createSpoutInstancesLoop parse tid tref sn sd pp g l).1.edges →
      e ∈ g.edges ∨ builderEdgeShape e := by
  intro l
  induction l with
  | nil => intro g e he; rw [spoutInner_nil] at he; exact .inl he
  | cons tok rest ih =>
    intro g e he
    cases hp : parse tok with
    | error err =>
      rw [spoutInner_cons_perr parse tid tref sn sd pp g tok rest hp] at he
      exact .inl he
    | ok inst =>
      cases hi : pp.instances.lookup tok with
      | none =>
        rw [spoutInner_cons_keyerr parse tid tref sn sd pp g tok rest hp hi] at he
        exact .inl he
      | some idata =>
        cases hc : (containerQuery tid tref inst.container
            (g.addV "spout" (spoutProps tid tref sn inst idata.stmgrId sd)).1).head? with
        | none =>
          rw [spoutInner_cons_lookuperr parse tid tref sn sd pp g tok rest hp hi hc] at he
          exact .inl he
        | some cont =>
          rw [spoutInner_cons_ok parse tid tref sn sd pp g tok rest hp hi hc] at he
          rcases ih _ e he with he' | he'
          · simp only [GraphDB.addE, GraphDB.addV, List.mem_append,
              List.mem_singleton] at he'
            rcases he' with he'' | rfl
            · exact .inl he''
            · exact .inr (.inl ⟨rfl, rfl⟩)
          · exact .inr he'

theorem spoutOuter_new_edges (parse : ParseFn) (tid tref : String)
    (pp : PhysicalPlan) :
    ∀ (l : List (String × SpoutData)) (g : GraphDB) (e : GEdge),
      e ∈ (createSpoutsLoop parse tid tref pp g l).1.edges →
      e ∈ g.edges ∨ builderEdgeShape e := by
  intro l
  induction l with
  | nil => intro g e he; rw [spoutOuter_nil] at he; exact .inl he
  | cons p rest ih =>
    intro g e he
    obtain ⟨sn, sd⟩ := p
    cases hl : pp.spouts.lookup sn with
    | none =>
      rw [spoutOuter_cons_keyerr parse tid tref sn sd pp g rest hl] at he
      exact .inl he
    | some toks =>
      rcases hrun : createSpoutInstancesLoop parse tid tref sn sd pp g toks with ⟨g1, err⟩
      have hstep : e ∈ g1.edges → e ∈ g.edges ∨ builderEdgeShape e := by
        intro he1
        have := spoutInner_new_edges parse tid tref sn sd pp toks g e
        rw [hrun] at this
        exact this he1
      cases err with
      | none =>
        rw [spoutOuter_cons_ok parse tid tref sn sd pp g rest hl hrun] at he
        rcases ih g1 e he with he' | he'
        · exact hstep he'
        · exact .inr he'
      | some err' =>
        rw [spoutOuter_cons_fail parse tid tref sn sd pp g rest hl hrun] at he
        exact hstep he

theorem boltInner_new_edges (parse : ParseFn) (tid tref bn : String)
    (pp : PhysicalPlan) :
    ∀ (l : List String) (g : GraphDB) (e : GEdge),
      e ∈ (createBoltInstancesLoop parse tid tref bn pp g l).1.edges →
      e ∈ g.edges ∨ builderEdgeShape e := by
  intro l
  induction l with
  | nil => intro g e he; rw [boltInner_nil] at he; exact .inl he
  | cons tok rest ih =>
    intro g e he
    cases hp : parse tok with
    | error err =>
      rw [boltInner_cons_perr parse tid tref bn pp g tok rest hp] at he
      exact .inl he
    | ok inst =>
      cases hi : pp.instances.lookup tok with
      | none =>
        rw [boltInner_cons_keyerr parse tid tref bn pp g tok rest hp hi] at he
        exact .inl he
      | some idata =>
        cases hc : (containerQuery tid tref inst.container
            (g.addV "bolt" (boltProps tid tref bn inst idata.stmgrId)).1).head? with
        | none =>
          rw [boltInner_cons_lookuperr parse tid tref bn pp g tok rest hp hi hc] at he
          exact .inl he
        | some cont =>
          rw [boltInner_cons_ok parse tid tref bn pp g tok rest hp hi hc] at he
          rcases ih _ e he with he' | he'
          · simp only [GraphDB.addE, GraphDB.addV, List.mem_append,
              List.mem_singleton] at he'
            rcases he' with he'' | rfl
            · exact .inl he''
            · exact .inr (.inl ⟨rfl, rfl⟩)
          · exact .inr he'

theorem boltOuter_new_edges (parse : ParseFn) (tid tref : String)
    (pp : PhysicalPlan) :
    ∀ (l : List (String × BoltData)) (g : GraphDB) (e : GEdge),
      e ∈ (createBoltsLoop parse tid tref pp g l).1.edges →
      e ∈ g.edges ∨ builderEdgeShape e := by
  intro l
  induction l with
  | nil => intro g e he; rw [boltOuter_nil] at he; exact .inl he
  | cons p rest ih =>
    intro g e he
    obtain ⟨bn, bd⟩ := p
    cases hl : pp.bolts.lookup bn with
    | none =>
      rw [boltOuter_cons_keyerr parse tid tref bn bd pp g rest hl] at he
      exact .inl he
    | some toks =>
      rcases hrun : createBoltInstancesLoop parse tid tref bn pp g toks with ⟨g1, err⟩
      have hstep : e ∈ g1.edges → e ∈ g.edges ∨ builderEdgeShape e := by
        intro he1
        have := boltInner_new_edges parse tid tref bn pp toks g e
        rw [hrun] at this
        exact this he1
      cases err with
      | none =>
        rw [boltOuter_cons_ok parse tid tref bn bd pp g rest hl hrun] at he
        rcases ih g1 e he with he' | he'
        · exact hstep he'
        · exact .inr he'
      | some err' =>
        rw [boltOuter_cons_fail parse tid tref bn bd pp g rest hl hrun] at he
        exact hstep he

theorem foldlAddE_new_edges (st : InputStream) (d : GVertex) :
    ∀ (ss : List GVertex) (g : GraphDB) (e : GEdge),
      e ∈ (ss.foldl (fun gs s =>
        gs.addE s.vid "logically_connected" (lcProps st) d.vid) g).edges →
      e ∈ g.edges ∨ builderEdgeShape e := by
  intro ss
  induction ss with
  | nil => intro g e he; exact .inl he
  | cons s srest sih =>
    intro g e he
    rw [List.foldl_cons] at he
    rcases sih _ e he with he' | he'
    · simp only [GraphDB.addE, List.mem_append, List.mem_singleton] at he'
      rcases he' with he'' | rfl
      · exact .inl he''
      · exact .inr (.inr ⟨rfl, st, rfl⟩)
    · exact .inr he'

theorem crossAddE_new_edges (st : InputStream) (sources : List GVertex) :
    ∀ (dests : List GVertex) (g : GraphDB) (e : GEdge),
      e ∈ (crossAddE g st dests sources).edges →
      e ∈ g.edges ∨ builderEdgeShape e := by
  intro dests
  induction dests with
  | nil => intro g e he; exact .inl he
  | cons d rest ih =>
    intro g e he
    simp only [crossAddE, List.foldl_cons] at he
    have hstep := ih (sources.foldl (fun gs s =>
      gs.addE s.vid "logically_connected" (lcProps st) d.vid) g) e
    simp only [crossAddE] at hstep
    rcases hstep he with he' | he'
    · exact foldlAddE_new_edges st d sources g e he'
    · exact .inr he'

theorem inputsLoop_new_edges (tid tref : String) (dests : List GVertex) :
    ∀ (l : List InputStream) (g : GraphDB) (e : GEdge),
      e ∈ (inputsLoop tid tref dests g l).edges →
      e ∈ g.edges ∨ builderEdgeShape e := by
  intro l
  induction l with
  | nil => intro g e he; exact .inl he
  | cons st rest ih =>
    intro g e he
    rw [inputsLoop_cons] at he
    rcases ih _ e he with he' | he'
    · exact crossAddE_new_edges st _ dests g e he'
    · exact .inr he'

theorem lcLoop_new_edges (tid tref : String) :
    ∀ (l : List (String × BoltData)) (g : GraphDB) (e : GEdge),
      e ∈ (createLogicalConnectionsLoop tid tref g l).edges →
      e ∈ g.edges ∨ builderEdgeShape e := by
  intro l
  induction l with
  | nil => intro g e he; exact .inl he
  | cons p rest ih =>
    intro g e he
    obtain ⟨bn, bd⟩ := p
    rw [lcLoop_cons] at he
    rcases ih _ e he with he' | he'
    · exact inputsLoop_new_edges tid tref _ bd.inputs g e he'
    · exact .inr he'

theorem build_new_vertices (parse : ParseFn) (tid tref : String)
    (lp : LogicalPlan) (pp : PhysicalPlan) (g : GraphDB) (v : GVertex)
    (hv : v ∈ (build_topology_graph parse tid tref lp pp g).1.vertices) :
    v ∈ g.vertices ∨ taggedV tid tref v := by
  rcases h1 : create_stream_managers tid tref pp g with ⟨g1, e1⟩
  have step1 : v ∈ g1.vertices → v ∈ g.vertices ∨ taggedV tid tref v := by
    intro hv1
    have := smLoop_new_vertices tid tref pp.stmgrs g v
    rw [show createStreamManagersLoop tid tref g pp.stmgrs =
      create_stream_managers tid tref pp g from rfl, h1] at this
    rcases this hv1 with h | h
    · exact .inl h
    · exact .inr h.1
  cases e1 with
  | some e => rw [build_fail_sm parse tid tref lp pp g h1] at hv; exact step1 hv
  | none =>
    rcases h2 : create_spouts parse tid tref pp lp g1 with ⟨g2, e2⟩
    have step2 : v ∈ g2.vertices → v ∈ g.vertices ∨ taggedV tid tref v := by
      intro hv2
      have := spoutOuter_new_vertices parse tid tref pp lp.spouts g1 v
      rw [show createSpoutsLoop parse tid tref pp g1 lp.spouts =
        create_spouts parse tid tref pp lp g1 from rfl, h2] at this
      rcases this hv2 with h | h
      · exact step1 h
      · exact .inr h.1
    cases e2 with
    | some e =>
      rw [build_fail_spouts parse tid tref lp pp g h1 h2] at hv
      exact step2 hv
    | none =>
      rcases h3 : create_bolts parse tid tref pp lp g2 with ⟨g3, e3⟩
      have step3 : v ∈ g3.vertices → v ∈ g.vertices ∨ taggedV tid tref v := by
        intro hv3
        have := boltOuter_new_vertices parse tid tref pp lp.bolts g2 v
        rw [show createBoltsLoop parse tid tref pp g2 lp.bolts =
          create_bolts parse tid tref pp lp g2 from rfl, h3] at this
        rcases this hv3 with h | h
        · exact step2 h
        · exact .inr h.1
      cases e3 with
      | some e =>
        rw [build_fail_bolts parse tid tref lp pp g h1 h2 h3] at hv
        exact step3 hv
      | none =>
        rw [build_all_ok parse tid tref lp pp g h1 h2 h3] at hv
        rw [show create_logical_connections tid tref lp g3 =
          createLogicalConnectionsLoop tid tref g3 lp.bolts from rfl,
          lcLoop_vertices] at hv
        exact step3 hv

theorem build_new_edges (parse : ParseFn) (tid tref : String)
    (lp : LogicalPlan) (pp : PhysicalPlan) (g : GraphDB) (e : GEdge)
    (he : e ∈ (build_topology_graph parse tid tref lp pp g).1.edges) :
    e ∈ g.edges ∨ builderEdgeShape e := by
  rcases h1 : create_stream_managers tid tref pp g with ⟨g1, e1⟩
  have step1 : e ∈ g1.edges → e ∈ g.edges ∨ builderEdgeShape e := by
    intro he1
    have := smLoop_new_edges tid tref pp.stmgrs g e
    rw [show createStreamManagersLoop tid tref g pp.stmgrs =
      create_stream_managers tid tref pp g from rfl, h1] at this
    exact this he1
  cases e1 with
  | some err => rw [build_fail_sm parse tid tref lp pp g h1] at he; exact step1 he
  | none =>
    rcases h2 : create_spouts parse tid tref pp lp g1 with ⟨g2, e2⟩
    have step2 : e ∈ g2.edges → e ∈ g.edges ∨ builderEdgeShape e := by
      intro he2
      have := spoutOuter_new_edges parse tid tref pp lp.spouts g1 e
      rw [show createSpoutsLoop parse tid tref pp g1 lp.spouts =
        create_spouts parse tid tref pp lp g1 from rfl, h2] at this
      rcases this he2 with h | h
      · exact step1 h
      · exact .inr h
    cases e2 with
    | some err =>
      rw [build_fail_spouts parse tid tref lp pp g h1 h2] at he
      exact step2 he
    | none =>
      rcases h3 : create_bolts parse tid tref pp lp g2 with ⟨g3, e3⟩
      have step3 : e ∈ g3.edges → e ∈ g.edges ∨ builderEdgeShape e := by
        intro he3
        have := boltOuter_new_edges parse tid tref pp lp.bolts g2 e
        rw [show createBoltsLoop parse tid tref pp g2 lp.bolts =
          create_bolts parse tid tref pp lp g2 from rfl, h3] at this
        rcases this he3 with h | h
        · exact step2 h
        · exact .inr h
      cases e3 with
      | some err =>
        rw [build_fail_bolts parse tid tref lp pp g h1 h2 h3] at he
        exact step3 he
      | none =>
        rw [build_all_ok parse tid tref lp pp g h1 h2 h3] at he
        rcases lcLoop_new_edges tid tref lp.bolts g3 e he with h | h
        · exact step3 h
        · exact .inr h

/-! Vertex counting per label within one (topology_id, topology_ref)
snapshot. -/

instance taggedV_decidable (tid tref : String) (v : GVertex) :
    Decidable (taggedV tid tref v) :=
  inferInstanceAs (Decidable (_ ∧ _))

/-- Number of vertices with the given label carrying the snapshot tags. -/
def vertexCount (g : GraphDB) (lab tid tref : String) : Nat :=
  g.vertices.countP (fun v => decide (v.label = lab ∧ taggedV tid tref v))

theorem vertexCount_addV_ne {lab lab' : String} (h : lab ≠ lab')
    (g : GraphDB) (props : List (String × PValue)) (tid tref : String) :
    vertexCount (g.addV lab props).1 lab' tid tref =
      vertexCount g lab' tid tref := by
  simp [vertexCount, GraphDB.addV, List.countP_append, List.countP_cons, h]

theorem vertexCount_addV_self {lab tid tref : String} (g : GraphDB)
    {props : List (String × PValue)}
    (h : taggedV tid tref ⟨g.nextId, lab, props⟩) :
    vertexCount (g.addV lab props).1 lab tid tref =
      vertexCount g lab tid tref + 1 := by
  simp [vertexCount, GraphDB.addV, List.countP_append, List.countP_cons, h]

theorem vertexCount_addE (g : GraphDB) (src : Nat) (lab' : String)
    (props : List (String × PValue)) (dst : Nat) (lab tid tref : String) :
    vertexCount (g.addE src lab' props dst) lab tid tref =
      vertexCount g lab tid tref := rfl

theorem smLoop_count (tid tref : String) :
    ∀ (l : List StMgrData) (g g' : GraphDB),
      createStreamManagersLoop tid tref g l = (g', none) →
      vertexCount g' "stream_manager" tid tref
          = vertexCount g "stream_manager" tid tref + l.length ∧
      vertexCount g' "container" tid tref
          = vertexCount g "container" tid tref + l.length := by
  intro l
  induction l with
  | nil =>
    intro g g' hrun
    rw [smLoop_nil] at hrun
    simp only [Prod.mk.injEq] at hrun
    obtain ⟨rfl, -⟩ := hrun
    simp
  | cons sm rest ih =>
    intro g g' hrun
    cases h : stmgrContainerId sm.id with
    | error e =>
      rw [smLoop_cons_err tid tref g sm rest h] at hrun
      simp only [Prod.mk.injEq] at hrun
      exact absurd hrun.2 (by simp)
    | ok c =>
      rw [smLoop_cons_ok tid tref g sm rest h] at hrun
      obtain ⟨h1, h2⟩ := ih _ g' hrun
      constructor
      · rw [h1, vertexCount_addE, vertexCount_addV_ne (by decide),
          vertexCount_addV_self g (taggedV_stmgr tid tref g.nextId sm)]
        simp only [List.length_cons]
        omega
      · rw [h2, vertexCount_addE,
          vertexCount_addV_self _ (taggedV_container tid tref _ c),
          vertexCount_addV_ne (by decide)]
        simp only [List.length_cons]
        omega

theorem spoutInner_count (parse : ParseFn) (tid tref sn : String)
    (sd : SpoutData) (pp : PhysicalPlan) {lab : String} (hlab : lab ≠ "spout") :
    ∀ (l : List String) (g : GraphDB) (tid' tref' : String),
      vertexCount (createSpoutInstancesLoop parse tid tref sn sd pp g l).1
          lab tid' tref' = vertexCount g lab tid' tref' := by
  intro l
  induction l with
  | nil => intro g tid' tref'; rw [spoutInner_nil]
  | cons tok rest ih =>
    intro g tid' tref'
    cases hp : parse tok with
    | error e => rw [spoutInner_cons_perr parse tid tref sn sd pp g tok rest hp]
    | ok inst =>
      cases hi : pp.instances.lookup tok with
      | none => rw [spoutInner_cons_keyerr parse tid tref sn sd pp g tok rest hp hi]
      | some idata =>
        cases hc : (containerQuery tid tref inst.container
            (g.addV "spout" (spoutProps tid tref sn inst idata.stmgrId sd)).1).head? with
        | none =>
          rw [spoutInner_cons_lookuperr parse tid tref sn sd pp g tok rest hp hi hc]
          exact vertexCount_addV_ne (fun h => hlab h.symm) g _ tid' tref'
        | some cont =>
          rw [spoutInner_cons_ok parse tid tref sn sd pp g tok rest hp hi hc,
            ih, vertexCount_addE]
          exact vertexCount_addV_ne (fun h => hlab h.symm) g _ tid' tref'

theorem spoutOuter_count (parse : ParseFn) (tid tref : String)
    (pp : PhysicalPlan) {lab : String} (hlab : lab ≠ "spout") :
    ∀ (l : List (String × SpoutData)) (g : GraphDB) (tid' tref' : String),
      vertexCount (createSpoutsLoop parse tid tref pp g l).1 lab tid' tref'
        = vertexCount g lab tid' tref' := by
  intro l
  induction l with
  | nil => intro g tid' tref'; rw [spoutOuter_nil]
  | cons p rest ih =>
    intro g tid' tref'
    obtain ⟨sn, sd⟩ := p
    cases hl : pp.spouts.lookup sn with
    | none => rw [spoutOuter_cons_keyerr parse tid tref sn sd pp g rest hl]
    | some toks =>
      rcases hrun : createSpoutInstancesLoop parse tid tref sn sd pp g toks with ⟨g1, err⟩
      have hstep : vertexCount g1 lab tid' tref' = vertexCount g lab tid' tref' := by
        have := spoutInner_count parse tid tref sn sd pp hlab toks g tid' tref'
        rwa [hrun] at this
      cases err with
      | none =>
        rw [spoutOuter_cons_ok parse tid tref sn sd pp g rest hl hrun, ih, hstep]
      | some e =>
        rw [spoutOuter_cons_fail parse tid tref sn sd pp g rest hl hrun]
        exact hstep

theorem boltInner_count (parse : ParseFn) (tid tref bn : String)
    (pp : PhysicalPlan) {lab : String} (hlab : lab ≠ "bolt") :
    ∀ (l : List String) (g : GraphDB) (tid' tref' : String),
      vertexCount (createBoltInstancesLoop parse tid tref bn pp g l).1
          lab tid' tref' = vertexCount g lab tid' tref' := by
  intro l
  induction l with
  | nil => intro g tid' tref'; rw [boltInner_nil]
  | cons tok rest ih =>
    intro g tid' tref'
    cases hp : parse tok with
    | error e => rw [boltInner_cons_perr parse tid tref bn pp g tok rest hp]
    | ok inst =>
      cases hi : pp.instances.lookup tok with
      | none => rw [boltInner_cons_keyerr parse tid tref bn pp g tok rest hp hi]
      | some idata =>
        cases hc : (containerQuery tid tref inst.container
            (g.addV "bolt" (boltProps tid tref bn inst idata.stmgrId)).1).head? with
        | none =>
          rw [boltInner_cons_lookuperr parse tid tref bn pp g tok rest hp hi hc]
          exact vertexCount_addV_ne (fun h => hlab h.symm) g _ tid' tref'
        | some cont =>
          rw [boltInner_cons_ok parse tid tref bn pp g tok rest hp hi hc,
            ih, vertexCount_addE]
          exact vertexCount_addV_ne (fun h => hlab h.symm) g _ tid' tref'

theorem boltOuter_count (parse : ParseFn) (tid tref : String)
    (pp : PhysicalPlan) {lab : String} (hlab : lab ≠ "bolt") :
    ∀ (l : List (String × BoltData)) (g : GraphDB) (tid' tref' : String),
      vertexCount (createBoltsLoop parse tid tref pp g l).1 lab tid' tref'
        = vertexCount g lab tid' tref' := by
  intro l
  induction l with
  | nil => intro g tid' tref'; rw [boltOuter_nil]
  | cons p rest ih =>
    intro g tid' tref'
    obtain ⟨bn, bd⟩ := p
    cases hl : pp.bolts.lookup bn with
    | none => rw [boltOuter_cons_keyerr parse tid tref bn bd pp g rest hl]
    | some toks =>
      rcases hrun : createBoltInstancesLoop parse tid tref bn pp g toks with ⟨g1, err⟩
      have hstep : vertexCount g1 lab tid' tref' = vertexCount g lab tid' tref' := by
        have := boltInner_count parse tid tref bn pp hlab toks g tid' tref'
        rwa [hrun] at this
      cases err with
      | none =>
        rw [boltOuter_cons_ok parse tid tref bn bd pp g rest hl hrun, ih, hstep]
      | some e =>
        rw [boltOuter_cons_fail parse tid tref bn bd pp g rest hl hrun]
        exact hstep

theorem vertexCount_eq_of_vertices_eq {g g' : GraphDB}
    (h : g'.vertices = g.vertices) (lab tid tref : String) :
    vertexCount g' lab tid tref = vertexCount g lab tid tref := by
  simp [vertexCount, h]

theorem build_count (parse : ParseFn) (tid tref : String) (lp : LogicalPlan)
    (pp : PhysicalPlan) (g g' : GraphDB)
    (hrun : build_topology_graph parse tid tref lp pp g = (g', none)) :
    vertexCount g' "stream_manager" tid tref
        = vertexCount g "stream_manager" tid tref + pp.stmgrs.length ∧
    vertexCount g' "container" tid tref
        = vertexCount g "container" tid tref + pp.stmgrs.length := by
  rcases h1 : create_stream_managers tid tref pp g with ⟨g1, e1⟩
  cases e1 with
  | some e => rw [build_fail_sm parse tid tref lp pp g h1] at hrun; simp at hrun
  | none =>
    rcases h2 : create_spouts parse tid tref pp lp g1 with ⟨g2, e2⟩
    cases e2 with
    | some e =>
      rw [build_fail_spouts parse tid tref lp pp g h1 h2] at hrun
      simp at hrun
    | none =>
      rcases h3 : create_bolts parse tid tref pp lp g2 with ⟨g3, e3⟩
      cases e3 with
      | some e =>
        rw [build_fail_bolts parse tid tref lp pp g h1 h2 h3] at hrun
        simp at hrun
      | none =>
        rw [build_all_ok parse tid tref lp pp g h1 h2 h3] at hrun
        simp only [Prod.mk.injEq] at hrun
        obtain ⟨rfl, -⟩ := hrun
        have hsm := smLoop_count tid tref pp.stmgrs g g1 h1
        have hsp1 := spoutOuter_count parse tid tref pp
          (show "stream_manager" ≠ "spout" from by decide) lp.spouts g1 tid tref
        have hsp2 := spoutOuter_count parse tid tref pp
          (show "container" ≠ "spout" from by decide) lp.spouts g1 tid tref
        rw [show createSpoutsLoop parse tid tref pp g1 lp.spouts =
          create_spouts parse tid tref pp lp g1 from rfl, h2] at hsp1 hsp2
        have hb1 := boltOuter_count parse tid tref pp
          (show "stream_manager" ≠ "bolt" from by decide) lp.bolts g2 tid tref
        have hb2 := boltOuter_count parse tid tref pp
          (show "container" ≠ "bolt" from by decide) lp.bolts g2 tid tref
        rw [show createBoltsLoop parse tid tref pp g2 lp.bolts =
          create_bolts parse tid tref pp lp g2 from rfl, h3] at hb1 hb2
        have hlc1 := vertexCount_eq_of_vertices_eq
          (lcLoop_vertices tid tref lp.bolts g3) "stream_manager" tid tref
        have hlc2 := vertexCount_eq_of_vertices_eq
          (lcLoop_vertices tid tref lp.bolts g3) "container" tid tref
        constructor
        · rw [show create_logical_connections tid tref lp g3 =
            createLogicalConnectionsLoop tid tref g3 lp.bolts from rfl]
          rw [hlc1, hb1, hsp1, hsm.1]
        · rw [show create_logical_connections tid tref lp g3 =
            createLogicalConnectionsLoop tid tref g3 lp.bolts from rfl]
          rw [hlc2, hb2, hsp2, hsm.2]

/-! Exact shape of the `is_within` edges created by the stream-manager
step. -/

/-- One created broker-containment edge: a property-less `is_within` edge
from a tagged `stream_manager` vertex to a tagged `container` vertex whose
id is the container index decoded from the stream manager's id. -/
def smEdgeWitness (tid tref : String) (gFinal : GraphDB) (e : GEdge) : Prop :=
  e.label = "is_within" ∧ e.props = [] ∧
  ∃ v w, v ∈ gFinal.vertices ∧ w ∈ gFinal.vertices ∧
    v.label = "stream_manager" ∧ w.label = "container" ∧
    taggedV tid tref v ∧ taggedV tid tref w ∧
    e.src = v.vid ∧ e.dst = w.vid ∧
    ∃ smid c, v.props.lookup "id" = some (.s smid) ∧
      stmgrContainerId smid = .ok c ∧ w.props.lookup "id" = some (.i c)

theorem smEdgeWitness_mono {tid tref : String} {g1 g2 : GraphDB}
    (h : g2.GrowsFrom g1) {e : GEdge} (he : smEdgeWitness tid tref g1 e) :
    smEdgeWitness tid tref g2 e := by
  obtain ⟨hl, hp, v, w, hv, hw, rest⟩ := he
  exact ⟨hl, hp, v, w, mem_vertices_mono h hv, mem_vertices_mono h hw, rest⟩

theorem smLoop_grows_of_run {tid tref : String} {l : List StMgrData}
    {g g' : GraphDB} {err : Option BuildError}
    (h : createStreamManagersLoop tid tref g l = (g', err)) : g'.GrowsFrom g := by
  have := smLoop_grows tid tref l g
  rwa [h] at this

theorem smLoop_edges_success (tid tref : String) :
    ∀ (l : List StMgrData) (g g' : GraphDB),
      createStreamManagersLoop tid tref g l = (g', none) →
      ∃ new, g'.edges = g.edges ++ new ∧ new.length = l.length ∧
        ∀ e ∈ new, smEdgeWitness tid tref g' e := by
  intro l
  induction l with
  | nil =>
    intro g g' hrun
    rw [smLoop_nil] at hrun
    simp only [Prod.mk.injEq] at hrun
    obtain ⟨rfl, -⟩ := hrun
    exact ⟨[], (List.append_nil _).symm, rfl, by simp⟩
  | cons sm rest ih =>
    intro g g' hrun
    cases h : stmgrContainerId sm.id with
    | error e =>
      rw [smLoop_cons_err tid tref g sm rest h] at hrun
      simp only [Prod.mk.injEq] at hrun
      exact absurd hrun.2 (by simp)
    | ok c =>
      rw [smLoop_cons_ok tid tref g sm rest h] at hrun
      obtain ⟨new', hedges, hlen, hwit⟩ := ih _ g' hrun
      have hgrow : g'.GrowsFrom
          (((g.addV "stream_manager" (stmgrProps tid tref sm)).1.addV
              "container" (containerProps tid tref c)).1.addE
            (g.addV "stream_manager" (stmgrProps tid tref sm)).2 "is_within" []
            ((g.addV "stream_manager" (stmgrProps tid tref sm)).1.addV
              "container" (containerProps tid tref c)).2) :=
        smLoop_grows_of_run hrun
      refine ⟨⟨g.nextId, g.nextId + 1, "is_within", []⟩ :: new', ?_, ?_, ?_⟩
      · rw [hedges]
        simp [GraphDB.addE, GraphDB.addV]
      · simp [hlen]
      · intro e he
        rcases List.mem_cons.mp he with rfl | he'
        · refine ⟨rfl, rfl,
            ⟨g.nextId, "stream_manager", stmgrProps tid tref sm⟩,
            ⟨g.nextId + 1, "container", containerProps tid tref c⟩,
            ?_, ?_, rfl, rfl, taggedV_stmgr tid tref g.nextId sm,
            taggedV_container tid tref _ c, rfl, rfl, sm.id, c, rfl, h, rfl⟩
          · apply mem_vertices_mono hgrow
            simp [GraphDB.addE, GraphDB.addV]
          · apply mem_vertices_mono hgrow
            simp [GraphDB.addE, GraphDB.addV]
        · exact hwit e he'

/-! Exact per-instance characterization of the spout and bolt steps. -/

theorem containerQuery_spec {tid tref : String} {c : Int} {g : GraphDB}
    {w : GVertex} (h : w ∈ containerQuery tid tref c g) :
    w ∈ g.vertices ∧ w.label = "container" ∧ taggedV tid tref w ∧
      w.props.lookup "id" = some (.i c) := by
  obtain ⟨hmem, hpred⟩ := List.mem_filter.mp h
  simp only [Bool.and_eq_true, beq_iff_eq, GVertex.hasProp] at hpred
  exact ⟨hmem, hpred.1.1.1, ⟨hpred.1.1.2, hpred.1.2⟩, hpred.2⟩

theorem spoutInner_grows_of_run {parse : ParseFn} {tid tref sn : String}
    {sd : SpoutData} {pp : PhysicalPlan} {l : List String} {g g' : GraphDB}
    {err : Option BuildError}
    (h : createSpoutInstancesLoop parse tid tref sn sd pp g l = (g', err)) :
    g'.GrowsFrom g := by
  have := spoutInner_grows parse tid tref sn sd pp l g
  rwa [h] at this

theorem spoutOuter_grows_of_run {parse : ParseFn} {tid tref : String}
    {pp : PhysicalPlan} {l : List (String × SpoutData)} {g g' : GraphDB}
    {err : Option BuildError}
    (h : createSpoutsLoop parse tid tref pp g l = (g', err)) :
    g'.GrowsFrom g := by
  have := spoutOuter_grows parse tid tref pp l g
  rwa [h] at this

theorem boltInner_grows_of_run {parse : ParseFn} {tid tref bn : String}
    {pp : PhysicalPlan} {l : List String} {g g' : GraphDB}
    {err : Option BuildError}
    (h : createBoltInstancesLoop parse tid tref bn pp g l = (g', err)) :
    g'.GrowsFrom g := by
  have := boltInner_grows parse tid tref bn pp l g
  rwa [h] at this

theorem boltOuter_grows_of_run {parse : ParseFn} {tid tref : String}
    {pp : PhysicalPlan} {l : List (String × BoltData)} {g g' : GraphDB}
    {err : Option BuildError}
    (h : createBoltsLoop parse tid tref pp g l = (g', err)) :
    g'.GrowsFrom g := by
  have := boltOuter_grows parse tid tref pp l g
  rwa [h] at this

/-- The per-instance creation obligations of `_create_spouts`: one entry
per (logical spout component, physical instance token), in iteration
order. -/
def spoutJobs (pp : PhysicalPlan) (spouts : List (String × SpoutData)) :
    List (String × SpoutData × String) :=
  spouts.flatMap (fun p =>
    ((pp.spouts.lookup p.1).getD []).map (fun t => (p.1, p.2, t)))

/-- What `_create_spouts` creates for one physical spout instance: a
`spout` vertex whose properties come from the decoded token, the instance
map and the logical spout data, and one property-less `is_within` edge from
it to a tagged container vertex whose id is the decoded container index. -/
def SpoutInstanceOk (parse : ParseFn) (tid tref : String) (pp : PhysicalPlan)
    (gFinal : GraphDB) (job : String × SpoutData × String)
    (ve : GVertex × GEdge) : Prop :=
  ∃ inst idata,
    parse job.2.2 = .ok inst ∧
    pp.instances.lookup job.2.2 = some idata ∧
    ve.1.label = "spout" ∧
    ve.1.props = spoutProps tid tref job.1 inst idata.stmgrId job.2.1 ∧
    ve.2.label = "is_within" ∧ ve.2.props = [] ∧ ve.2.src = ve.1.vid ∧
    ∃ w, w ∈ gFinal.vertices ∧ w.label = "container" ∧ taggedV tid tref w ∧
      w.props.lookup "id" = some (.i inst.container) ∧ ve.2.dst = w.vid

theorem SpoutInstanceOk_mono {parse : ParseFn} {tid tref : String}
    {pp : PhysicalPlan} {g1 g2 : GraphDB} (h : g2.GrowsFrom g1)
    {job : String × SpoutData × String} {ve : GVertex × GEdge}
    (hok : SpoutInstanceOk parse tid tref pp g1 job ve) :
    SpoutInstanceOk parse tid tref pp g2 job ve := by
  obtain ⟨inst, idata, h1, h2, h3, h4, h5, h6, h7, w, hw, rest⟩ := hok
  exact ⟨inst, idata, h1, h2, h3, h4, h5, h6, h7, w,
    mem_vertices_mono h hw, rest⟩

theorem spoutInner_success (parse : ParseFn) (tid tref sn : String)
    (sd : SpoutData) (pp : PhysicalPlan) :
    ∀ (toks : List String) (g g' : GraphDB),
      createSpoutInstancesLoop parse tid tref sn sd pp g toks = (g', none) →
      ∃ newV newE, g'.vertices = g.vertices ++ newV ∧
        g'.edges = g.edges ++ newE ∧ newV.length = newE.length ∧
        List.Forall₂ (SpoutInstanceOk parse tid tref pp g')
          (toks.map (fun t => (sn, sd, t))) (newV.zip newE) := by
  intro toks
  induction toks with
  | nil =>
    intro g g' hrun
    rw [spoutInner_nil] at hrun
    simp only [Prod.mk.injEq] at hrun
    obtain ⟨rfl, -⟩ := hrun
    exact ⟨[], [], by simp, by simp, rfl, by simp⟩
  | cons tok rest ih =>
    intro g g' hrun
    cases hp : parse tok with
    | error e =>
      rw [spoutInner_cons_perr parse tid tref sn sd pp g tok rest hp] at hrun
      simp only [Prod.mk.injEq] at hrun
      exact absurd hrun.2 (by simp)
    | ok inst =>
      cases hi : pp.instances.lookup tok with
      | none =>
        rw [spoutInner_cons_keyerr parse tid tref sn sd pp g tok rest hp hi] at hrun
        simp only [Prod.mk.injEq] at hrun
        exact absurd hrun.2 (by simp)
      | some idata =>
        cases hc : (containerQuery tid tref inst.container
            (g.addV "spout" (spoutProps tid tref sn inst idata.stmgrId sd)).1).head? with
        | none =>
          rw [spoutInner_cons_lookuperr parse tid tref sn sd pp g tok rest hp hi hc] at hrun
          simp only [Prod.mk.injEq] at hrun
          exact absurd hrun.2 (by simp)
        | some cont =>
          rw [spoutInner_cons_ok parse tid tref sn sd pp g tok rest hp hi hc] at hrun
          obtain ⟨newV', newE', hv, he, hlen, hrel⟩ := ih _ g' hrun
          obtain ⟨hcmem, hclab, hctag, hcid⟩ :=
            containerQuery_spec (List.mem_of_mem_head? hc)
          have hg : g'.GrowsFrom
              ((g.addV "spout" (spoutProps tid tref sn inst idata.stmgrId sd)).1.addE
                (g.addV "spout" (spoutProps tid tref sn inst idata.stmgrId sd)).2
                "is_within" [] cont.vid) := spoutInner_grows_of_run hrun
          refine ⟨⟨g.nextId, "spout",
              spoutProps tid tref sn inst idata.stmgrId sd⟩ :: newV',
            ⟨g.nextId, cont.vid, "is_within", []⟩ :: newE', ?_, ?_, ?_, ?_⟩
          · rw [hv]; simp [GraphDB.addE, GraphDB.addV]
          · rw [he]; simp [GraphDB.addE, GraphDB.addV]
          · simp [hlen]
          · simp only [List.map_cons, List.zip_cons_cons]
            refine List.Forall₂.cons ?_ hrel
            exact ⟨inst, idata, hp, hi, rfl, rfl, rfl, rfl, rfl, cont,
              mem_vertices_mono hg hcmem, hclab, hctag, hcid, rfl⟩

theorem spoutOuter_success (parse : ParseFn) (tid tref : String)
    (pp : PhysicalPlan) :
    ∀ (l : List (String × SpoutData)) (g g' : GraphDB),
      createSpoutsLoop parse tid tref pp g l = (g', none) →
      ∃ newV newE, g'.vertices = g.vertices ++ newV ∧
        g'.edges = g.edges ++ newE ∧ newV.length = newE.length ∧
        List.Forall₂ (SpoutInstanceOk parse tid tref pp g')
          (spoutJobs pp l) (newV.zip newE) := by
  intro l
  induction l with
  | nil =>
    intro g g' hrun
    rw [spoutOuter_nil] at hrun
    simp only [Prod.mk.injEq] at hrun
    obtain ⟨rfl, -⟩ := hrun
    exact ⟨[], [], by simp, by simp, rfl, by simp [spoutJobs]⟩
  | cons p rest ih =>
    intro g g' hrun
    obtain ⟨sn, sd⟩ := p
    cases hl : pp.spouts.lookup sn with
    | none =>
      rw [spoutOuter_cons_keyerr parse tid tref sn sd pp g rest hl] at hrun
      simp only [Prod.mk.injEq] at hrun
      exact absurd hrun.2 (by simp)
    | some toks =>
      rcases hstep : createSpoutInstancesLoop parse tid tref sn sd pp g toks with ⟨g1, err⟩
      cases err with
      | some e =>
        rw [spoutOuter_cons_fail parse tid tref sn sd pp g rest hl hstep] at hrun
        simp only [Prod.mk.injEq] at hrun
        exact absurd hrun.2 (by simp)
      | none =>
        rw [spoutOuter_cons_ok parse tid tref sn sd pp g rest hl hstep] at hrun
        obtain ⟨newV1, newE1, hv1, he1, hlen1, hrel1⟩ :=
          spoutInner_success parse tid tref sn sd pp toks g g1 hstep
        obtain ⟨newV2, newE2, hv2, he2, hlen2, hrel2⟩ := ih g1 g' hrun
        have hg : g'.GrowsFrom g1 := spoutOuter_grows_of_run hrun
        refine ⟨newV1 ++ newV2, newE1 ++ newE2, ?_, ?_, ?_, ?_⟩
        · rw [hv2, hv1, List.append_assoc]
        · rw [he2, he1, List.append_assoc]
        · simp [hlen1, hlen2]
        · rw [List.zip_append hlen1]
          have hjobs : spoutJobs pp ((sn, sd) :: rest) =
              (toks.map (fun t => (sn, sd, t))) ++ spoutJobs pp rest := by
            simp [spoutJobs, hl]
          rw [hjobs]
          exact List.rel_append
            (hrel1.imp (fun a b hab => SpoutInstanceOk_mono hg hab)) hrel2

/-- The per-instance creation obligations of `_create_bolts`: one entry per
(logical bolt component, physical instance token), in iteration order. -/
def boltJobs (pp : PhysicalPlan) (bolts : List (String × BoltData)) :
    List (String × String) :=
  bolts.flatMap (fun p =>
    ((pp.bolts.lookup p.1).getD []).map (fun t => (p.1, t)))

/-- What `_create_bolts` creates for one physical bolt instance, symmetric
to `SpoutInstanceOk` without the spout-specific properties. -/
def BoltInstanceOk (parse : ParseFn) (tid tref : String) (pp : PhysicalPlan)
    (gFinal : GraphDB) (job : String × String) (ve : GVertex × GEdge) : Prop :=
  ∃ inst idata,
    parse job.2 = .ok inst ∧
    pp.instances.lookup job.2 = some idata ∧
    ve.1.label = "bolt" ∧
    ve.1.props = boltProps tid tref job.1 inst idata.stmgrId ∧
    ve.2.label = "is_within" ∧ ve.2.props = [] ∧ ve.2.src = ve.1.vid ∧
    ∃ w, w ∈ gFinal.vertices ∧ w.label = "container" ∧ taggedV tid tref w ∧
      w.props.lookup "id" = some (.i inst.container) ∧ ve.2.dst = w.vid

theorem BoltInstanceOk_mono {parse : ParseFn} {tid tref : String}
    {pp : PhysicalPlan} {g1 g2 : GraphDB} (h : g2.GrowsFrom g1)
    {job : String × String} {ve : GVertex × GEdge}
    (hok : BoltInstanceOk parse tid tref pp g1 job ve) :
    BoltInstanceOk parse tid tref pp g2 job ve := by
  obtain ⟨inst, idata, h1, h2, h3, h4, h5, h6, h7, w, hw, rest⟩ := hok
  exact ⟨inst, idata, h1, h2, h3, h4, h5, h6, h7, w,
    mem_vertices_mono h hw, rest⟩

theorem boltInner_success (parse : ParseFn) (tid tref bn : String)
    (pp : PhysicalPlan) :
    ∀ (toks : List String) (g g' : GraphDB),
      createBoltInstancesLoop parse tid tref bn pp g toks = (g', none) →
      ∃ newV newE, g'.vertices = g.vertices ++ newV ∧
        g'.edges = g.edges ++ newE ∧ newV.length = newE.length ∧
        List.Forall₂ (BoltInstanceOk parse tid tref pp g')
          (toks.map (fun t => (bn, t))) (newV.zip newE) := by
  intro toks
  induction toks with
  | nil =>
    intro g g' hrun
    rw [boltInner_nil] at hrun
    simp only [Prod.mk.injEq] at hrun
    obtain ⟨rfl, -⟩ := hrun
    exact ⟨[], [], by simp, by simp, rfl, by simp⟩
  | cons tok rest ih =>
    intro g g' hrun
    cases hp : parse tok with
    | error e =>
      rw [boltInner_cons_perr parse tid tref bn pp g tok rest hp] at hrun
      simp only [Prod.mk.injEq] at hrun
      exact absurd hrun.2 (by simp)
    | ok inst =>
      cases hi : pp.instances.lookup tok with
      | none =>
        rw [boltInner_cons_keyerr parse tid tref bn pp g tok rest hp hi] at hrun
        simp only [Prod.mk.injEq] at hrun
        exact absurd hrun.2 (by simp)
      | some idata =>
        cases hc : (containerQuery tid tref inst.container
            (g.addV "bolt" (boltProps tid tref bn inst idata.stmgrId)).1).head? with
        | none =>
          rw [boltInner_cons_lookuperr parse tid tref bn pp g tok rest hp hi hc] at hrun
          simp only [Prod.mk.injEq] at hrun
          exact absurd hrun.2 (by simp)
        | some cont =>
          rw [boltInner_cons_ok parse tid tref bn pp g tok rest hp hi hc] at hrun
          obtain ⟨newV', newE', hv, he, hlen, hrel⟩ := ih _ g' hrun
          obtain ⟨hcmem, hclab, hctag, hcid⟩ :=
            containerQuery_spec (List.mem_of_mem_head? hc)
          have hg : g'.GrowsFrom
              ((g.addV "bolt" (boltProps tid tref bn inst idata.stmgrId)).1.addE
                (g.addV "bolt" (boltProps tid tref bn inst idata.stmgrId)).2
                "is_within" [] cont.vid) := boltInner_grows_of_run hrun
          refine ⟨⟨g.nextId, "bolt",
              boltProps tid tref bn inst idata.stmgrId⟩ :: newV',
            ⟨g.nextId, cont.vid, "is_within", []⟩ :: newE', ?_, ?_, ?_, ?_⟩
          · rw [hv]; simp [GraphDB.addE, GraphDB.addV]
          · rw [he]; simp [GraphDB.addE, GraphDB.addV]
          · simp [hlen]
          · simp only [List.map_cons, List.zip_cons_cons]
            refine List.Forall₂.cons ?_ hrel
            exact ⟨inst, idata, hp, hi, rfl, rfl, rfl, rfl, rfl, cont,
              mem_vertices_mono hg hcmem, hclab, hctag, hcid, rfl⟩

theorem boltOuter_success (parse : ParseFn) (tid tref : String)
    (pp : PhysicalPlan) :
    ∀ (l : List (String × BoltData)) (g g' : GraphDB),
      createBoltsLoop parse tid tref pp g l = (g', none) →
      ∃ newV newE, g'.vertices = g.vertices ++ newV ∧
        g'.edges = g.edges ++ newE ∧ newV.length = newE.length ∧
        List.Forall₂ (BoltInstanceOk parse tid tref pp g')
          (boltJobs pp l) (newV.zip newE) := by
  intro l
  induction l with
  | nil =>
    intro g g' hrun
    rw [boltOuter_nil] at hrun
    simp only [Prod.mk.injEq] at hrun
    obtain ⟨rfl, -⟩ := hrun
    exact ⟨[], [], by simp, by simp, rfl, by simp [boltJobs]⟩
  | cons p rest ih =>
    intro g g' hrun
    obtain ⟨bn, bd⟩ := p
    cases hl : pp.bolts.lookup bn with
    | none =>
      rw [boltOuter_cons_keyerr parse tid tref bn bd pp g rest hl] at hrun
      simp only [Prod.mk.injEq] at hrun
      exact absurd hrun.2 (by simp)
    | some toks =>
      rcases hstep : createBoltInstancesLoop parse tid tref bn pp g toks with ⟨g1, err⟩
      cases err with
      | some e =>
        rw [boltOuter_cons_fail parse tid tref bn bd pp g rest hl hstep] at hrun
        simp only [Prod.mk.injEq] at hrun
        exact absurd hrun.2 (by simp)
      | none =>
        rw [boltOuter_cons_ok parse tid tref bn bd pp g rest hl hstep] at hrun
        obtain ⟨newV1, newE1, hv1, he1, hlen1, hrel1⟩ :=
          boltInner_success parse tid tref bn pp toks g g1 hstep
        obtain ⟨newV2, newE2, hv2, he2, hlen2, hrel2⟩ := ih g1 g' hrun
        have hg : g'.GrowsFrom g1 := boltOuter_grows_of_run hrun
        refine ⟨newV1 ++ newV2, newE1 ++ newE2, ?_, ?_, ?_, ?_⟩
        · rw [hv2, hv1, List.append_assoc]
        · rw [he2, he1, List.append_assoc]
        · simp [hlen1, hlen2]
        · rw [List.zip_append hlen1]
          have hjobs : boltJobs pp ((bn, bd) :: rest) =
              (toks.map (fun t => (bn, t))) ++ boltJobs pp rest := by
            simp [boltJobs, hl]
          rw [hjobs]
          exact List.rel_append
            (hrel1.imp (fun a b hab => BoltInstanceOk_mono hg hab)) hrel2

/-! Exact characterization of the logical-connection step. -/

/-- The edges lines 186–193 create for one declared input stream: for every
destination instance, for every source instance, one `logically_connected`
edge from source to destination tagged with the stream name and grouping. -/
def streamEdges (st : InputStream) (dests sources : List GVertex) :
    List GEdge :=
  dests.flatMap (fun d => sources.map (fun s =>
    ⟨s.vid, d.vid, "logically_connected", lcProps st⟩))

theorem foldlAddE_edges (st : InputStream) (d : GVertex) :
    ∀ (ss : List GVertex) (g : GraphDB),
      (ss.foldl (fun gs s =>
        gs.addE s.vid "logically_connected" (lcProps st) d.vid) g).edges =
      g.edges ++ ss.map (fun s =>
        ⟨s.vid, d.vid, "logically_connected", lcProps st⟩) := by
  intro ss
  induction ss with
  | nil => intro g; simp
  | cons s srest sih =>
    intro g
    rw [List.foldl_cons, sih]
    simp [GraphDB.addE]

theorem crossAddE_edges (st : InputStream) :
    ∀ (dests : List GVertex) (sources : List GVertex) (g : GraphDB),
      (crossAddE g st dests sources).edges =
        g.edges ++ streamEdges st dests sources := by
  intro dests
  induction dests with
  | nil => intro sources g; simp [crossAddE, streamEdges]
  | cons d rest ih =>
    intro sources g
    have h := ih sources (sources.foldl (fun gs s =>
      gs.addE s.vid "logically_connected" (lcProps st) d.vid) g)
    simp only [crossAddE, List.foldl_cons] at h ⊢
    rw [h, foldlAddE_edges]
    simp [streamEdges, List.append_assoc]

theorem componentQuery_eq_of_vertices {g g' : GraphDB}
    (h : g'.vertices = g.vertices) (tid tref comp : String) :
    componentQuery tid tref comp g' = componentQuery tid tref comp g := by
  simp [componentQuery, h]

theorem inputsLoop_edges (tid tref : String) (dests : List GVertex) :
    ∀ (l : List InputStream) (g : GraphDB),
      (inputsLoop tid tref dests g l).edges =
        g.edges ++ l.flatMap (fun st =>
          streamEdges st dests (componentQuery tid tref st.component_name g)) := by
  intro l
  induction l with
  | nil => intro g; simp [inputsLoop_nil]
  | cons st rest ih =>
    intro g
    rw [inputsLoop_cons, ih]
    have hv : ∀ c : String,
        componentQuery tid tref c
          (crossAddE g st dests (componentQuery tid tref st.component_name g))
          = componentQuery tid tref c g := fun c =>
      componentQuery_eq_of_vertices (crossAddE_vertices st _ dests g) tid tref c
    simp only [hv, crossAddE_edges]
    simp [List.append_assoc]

theorem lcLoop_edges (tid tref : String) :
    ∀ (l : List (String × BoltData)) (g : GraphDB),
      (createLogicalConnectionsLoop tid tref g l).edges =
        g.edges ++ l.flatMap (fun p => p.2.inputs.flatMap (fun st =>
          streamEdges st (componentQuery tid tref p.1 g)
            (componentQuery tid tref st.component_name g))) := by
  intro l
  induction l with
  | nil => intro g; simp [lcLoop_nil]
  | cons p rest ih =>
    intro g
    obtain ⟨bn, bd⟩ := p
    rw [lcLoop_cons, ih]
    have hvert : (inputsLoop tid tref (componentQuery tid tref bn g) g
        bd.inputs).vertices = g.vertices :=
      inputsLoop_vertices tid tref _ bd.inputs g
    have hv : ∀ c : String,
        componentQuery tid tref c
          (inputsLoop tid tref (componentQuery tid tref bn g) g bd.inputs)
          = componentQuery tid tref c g := fun c =>
      componentQuery_eq_of_vertices hvert tid tref c
    simp only [hv, inputsLoop_edges]
    simp [List.append_assoc]

theorem streamEdges_length (st : InputStream) :
    ∀ (dests sources : List GVertex),
      (streamEdges st dests sources).length =
        sources.length * dests.length := by
  intro dests
  induction dests with
  | nil => intro sources; simp [streamEdges]
  | cons d rest ih =>
    intro sources
    simp only [streamEdges, List.flatMap_cons, List.length_append,
      List.length_map] at ih ⊢
    rw [ih sources, List.length_cons, Nat.mul_succ]
    omega

theorem streamEdges_mem {st : InputStream} {dests sources : List GVertex}
    {e : GEdge} (h : e ∈ streamEdges st dests sources) :
    e.label = "logically_connected" ∧
    e.props.lookup "stream_name" = some (.s st.stream_name) ∧
    e.props.lookup "grouping" = some (.s st.grouping) ∧
    ∃ s ∈ sources, ∃ d ∈ dests, e.src = s.vid ∧ e.dst = d.vid := by
  simp only [streamEdges, List.mem_flatMap, List.mem_map] at h
  obtain ⟨d, hd, s, hs, rfl⟩ := h
  exact ⟨rfl, rfl, rfl, s, hs, d, hd, rfl, rfl⟩

/-! Concrete data used by witnesses and counterexamples. -/

/-- A fixed instance-name decoder for the concrete examples (the decoder
itself is external, see `ParseFn`). -/
def sampleParse : ParseFn := fun t =>
  if t = "c1s1" then .ok ⟨1, 1⟩
  else if t = "c1s2" then .ok ⟨1, 2⟩
  else if t = "c1b1" then .ok ⟨1, 3⟩
  else .error (.parseError t)

/-- Physical plan of the spec's end-to-end scenario (§8): one broker
`stmgr-1` in container 1, two instances of `S1`, one instance of `B1`. -/
def samplePP : PhysicalPlan :=
  ⟨[⟨"stmgr-1", "host1", 10, 11⟩],
   [("S1", ["c1s1", "c1s2"])],
   [("B1", ["c1b1"])],
   [("c1s1", ⟨"stmgr-1"⟩), ("c1s2", ⟨"stmgr-1"⟩), ("c1b1", ⟨"stmgr-1"⟩)]⟩

/-- Logical plan of the spec's end-to-end scenario: spout `S1`, bolt `B1`
with one declared input (component `S1`, stream `default`, grouping
`shuffle`). -/
def sampleLP : LogicalPlan :=
  ⟨[("S1", ⟨"fixed", "src"⟩)],
   [("B1", ⟨[⟨"S1", "default", "shuffle"⟩]⟩)]⟩

/-- The scenario build, from an empty store. -/
def sampleBuild : GraphDB × Option BuildError :=
  build_topology_graph sampleParse "topo" "ref" sampleLP samplePP GraphDB.empty

/-- C1: for every logical bolt component and every input stream it
declares, `_create_logical_connections` creates exactly S×D
`logically_connected` edges for that stream — S and D being the sizes of
the snapshot-scoped instance queries for the source and destination
component — one per (source instance, destination instance) pair, each
directed from the source instance to the destination instance and carrying
the declared stream_name and grouping properties. -/
theorem C1_logical_cross_product (tid tref : String) (lp : LogicalPlan)
    (g : GraphDB) :
    (create_logical_connections tid tref lp g).edges =
      g.edges ++ lp.bolts.flatMap (fun p => p.2.inputs.flatMap (fun st =>
        streamEdges st (componentQuery tid tref p.1 g)
          (componentQuery tid tref st.component_name g))) ∧
    (∀ (bn : String) (bd : BoltData) (st : InputStream),
      (bn, bd) ∈ lp.bolts → st ∈ bd.inputs →
      (streamEdges st (componentQuery tid tref bn g)
          (componentQuery tid tref st.component_name g)).length =
        (componentQuery tid tref st.component_name g).length *
          (componentQuery tid tref bn g).length) ∧
    (∀ (st : InputStream) (dests sources : List GVertex) (e : GEdge),
      e ∈ streamEdges st dests sources →
      e.label = "logically_connected" ∧
      e.props.lookup "stream_name" = some (.s st.stream_name) ∧
      e.props.lookup "grouping" = some (.s st.grouping) ∧
      ∃ s ∈ sources, ∃ d ∈ dests, e.src = s.vid ∧ e.dst = d.vid) := by
  refine ⟨lcLoop_edges tid tref lp.bolts g, ?_, ?_⟩
  · intro bn bd st hmem hst
    exact streamEdges_length st _ _
  · intro st dests sources e he
    exact streamEdges_mem he

/-- Witness for C1 on the spec's end-to-end scenario: `S1` has two
instances and `B1` one, so the one declared stream gets 2×1 edges. -/
theorem C1_logical_cross_product_witness :
    (componentQuery "topo" "ref" "S1" sampleBuild.1).length = 2 ∧
    (componentQuery "topo" "ref" "B1" sampleBuild.1).length = 1 ∧
    (streamEdges ⟨"S1", "default", "shuffle"⟩
        (componentQuery "topo" "ref" "B1" sampleBuild.1)
        (componentQuery "topo" "ref" "S1" sampleBuild.1)).length =
      (componentQuery "topo" "ref" "S1" sampleBuild.1).length *
        (componentQuery "topo" "ref" "B1" sampleBuild.1).length :=
  ⟨by decide, by decide,
    (C1_logical_cross_product "topo" "ref" sampleLP sampleBuild.1).2.1
      "B1" ⟨[⟨"S1", "default", "shuffle"⟩]⟩ ⟨"S1", "default", "shuffle"⟩
      (by decide) (by decide)⟩

/-- C2 as stated is false: the scenario build succeeds and creates edges
(e.g. the `is_within` edges, whose property list is empty) that carry
neither `topology_id` nor `topology_ref`. -/
theorem C2_counterexample :
    sampleBuild.2 = none ∧ sampleBuild.1.edges.length = 6 ∧
    ∃ e ∈ sampleBuild.1.edges,
      e.props.lookup "topology_id" = none ∧
      e.props.lookup "topology_ref" = none := by
  refine ⟨by decide, by decide, ⟨0, 1, "is_within", []⟩, by decide, rfl, rfl⟩

/-- C2 amended: every vertex created during one call of
`build_topology_graph` carries `topology_id` and `topology_ref` with the
values passed to the call; the created edges carry neither (an `is_within`
edge has no properties and a `logically_connected` edge only stream_name
and grouping). -/
theorem C2_tagging (parse : ParseFn) (tid tref : String) (lp : LogicalPlan)
    (pp : PhysicalPlan) (g : GraphDB) :
    (∀ v ∈ (build_topology_graph parse tid tref lp pp g).1.vertices,
      v ∈ g.vertices ∨
        (v.props.lookup "topology_id" = some (.s tid) ∧
         v.props.lookup "topology_ref" = some (.s tref))) ∧
    (∀ e ∈ (build_topology_graph parse tid tref lp pp g).1.edges,
      e ∈ g.edges ∨
        (e.props.lookup "topology_id" = none ∧
         e.props.lookup "topology_ref" = none)) := by
  constructor
  · intro v hv
    exact build_new_vertices parse tid tref lp pp g v hv
  · intro e he
    rcases build_new_edges parse tid tref lp pp g e he with h | h
    · exact .inl h
    · right
      rcases h with ⟨-, hp⟩ | ⟨-, st, hp⟩
      · rw [hp]; exact ⟨rfl, rfl⟩
      · rw [hp]; exact ⟨rfl, rfl⟩

/-- Witness for C2 amended, on the scenario build: its first vertex is
tagged (it is not an element of the empty initial store), and its first
edge carries neither tag. -/
theorem C2_tagging_witness :
    (⟨0, "stream_manager", stmgrProps "topo" "ref" ⟨"stmgr-1", "host1", 10, 11⟩⟩
        ∈ (GraphDB.empty : GraphDB).vertices ∨
      ((stmgrProps "topo" "ref" ⟨"stmgr-1", "host1", 10, 11⟩).lookup
          "topology_id" = some (.s "topo") ∧
        (stmgrProps "topo" "ref" ⟨"stmgr-1", "host1", 10, 11⟩).lookup
          "topology_ref" = some (.s "ref"))) ∧
    ((⟨0, 1, "is_within", []⟩ : GEdge) ∈ (GraphDB.empty : GraphDB).edges ∨
      (([] : List (String × PValue)).lookup "topology_id" = none ∧
        ([] : List (String × PValue)).lookup "topology_ref" = none)) :=
  ⟨(C2_tagging sampleParse "topo" "ref" sampleLP samplePP GraphDB.empty).1
      ⟨0, "stream_manager", stmgrProps "topo" "ref" ⟨"stmgr-1", "host1", 10, 11⟩⟩
      (by decide),
    (C2_tagging sampleParse "topo" "ref" sampleLP samplePP GraphDB.empty).2
      ⟨0, 1, "is_within", []⟩ (by decide)⟩

/-- C3: for a physical plan whose stream-manager map has B entries, a
successful `_create_stream_managers` adds exactly B tagged `stream_manager`
vertices, exactly B tagged `container` vertices, and exactly B `is_within`
edges, each from a created stream manager to the container whose id is the
index decoded from that stream manager's id. -/
theorem C3_stream_manager_counts (tid tref : String) (pp : PhysicalPlan)
    (g g' : GraphDB)
    (h : create_stream_managers tid tref pp g = (g', none)) :
    vertexCount g' "stream_manager" tid tref =
      vertexCount g "stream_manager" tid tref + pp.stmgrs.length ∧
    vertexCount g' "container" tid tref =
      vertexCount g "container" tid tref + pp.stmgrs.length ∧
    ∃ new, g'.edges = g.edges ++ new ∧ new.length = pp.stmgrs.length ∧
      ∀ e ∈ new, smEdgeWitness tid tref g' e := by
  obtain ⟨h1, h2⟩ := smLoop_count tid tref pp.stmgrs g g' h
  exact ⟨h1, h2, smLoop_edges_success tid tref pp.stmgrs g g' h⟩

/-- Witness for C3: the scenario physical plan has one broker entry;
building from the empty store yields one tagged stream manager, one tagged
container and one is_within edge. -/
theorem C3_stream_manager_counts_witness :
    vertexCount (create_stream_managers "topo" "ref" samplePP GraphDB.empty).1
        "stream_manager" "topo" "ref" =
      vertexCount GraphDB.empty "stream_manager" "topo" "ref" +
        samplePP.stmgrs.length ∧
    vertexCount (create_stream_managers "topo" "ref" samplePP GraphDB.empty).1
        "container" "topo" "ref" =
      vertexCount GraphDB.empty "container" "topo" "ref" +
        samplePP.stmgrs.length ∧
    ∃ new, (create_stream_managers "topo" "ref" samplePP GraphDB.empty).1.edges
        = (GraphDB.empty : GraphDB).edges ++ new ∧
      new.length = samplePP.stmgrs.length ∧
      ∀ e ∈ new, smEdgeWitness "topo" "ref"
        (create_stream_managers "topo" "ref" samplePP GraphDB.empty).1 e :=
  C3_stream_manager_counts "topo" "ref" samplePP GraphDB.empty
    (create_stream_managers "topo" "ref" samplePP GraphDB.empty).1 (by decide)

/-- C4 as stated is false: a physical-plan spout instance listed under a
component that does not occur in the logical plan gets no vertex — the
iteration is driven by the logical plan.  Here the physical plan lists
instance `c1s1` under spout component `extra`, the logical plan has no
spout, the build succeeds, and no `spout` vertex exists. -/
theorem C4_counterexample :
    (build_topology_graph sampleParse "topo" "ref" (⟨[], []⟩ : LogicalPlan)
        (⟨[], [("extra", ["c1s1"])], [], [("c1s1", ⟨"stmgr-1"⟩)]⟩ :
          PhysicalPlan) GraphDB.empty).2 = none ∧
    ((build_topology_graph sampleParse "topo" "ref" (⟨[], []⟩ : LogicalPlan)
        (⟨[], [("extra", ["c1s1"])], [], [("c1s1", ⟨"stmgr-1"⟩)]⟩ :
          PhysicalPlan) GraphDB.empty).1.vertices.filter
      (fun v => v.label == "spout")).length = 0 := by
  exact ⟨by decide, by decide⟩

/-- C4 amended: for every spout (resp. bolt) component of the logical plan
and every physical instance token listed under it, a successful
`_create_spouts` (resp. `_create_bolts`) creates exactly one `spout`
(resp. `bolt`) vertex whose container and task_id come from the decoded
token and whose stream_manager is the brokerId from the instance map, plus
exactly one `is_within` edge from that vertex to a container vertex whose
id equals the decoded container index — and nothing else. -/
theorem C4_instance_vertices (parse : ParseFn) (tid tref : String)
    (pp : PhysicalPlan) (lp : LogicalPlan) :
    (∀ g g', create_spouts parse tid tref pp lp g = (g', none) →
      ∃ newV newE, g'.vertices = g.vertices ++ newV ∧
        g'.edges = g.edges ++ newE ∧ newV.length = newE.length ∧
        List.Forall₂ (SpoutInstanceOk parse tid tref pp g')
          (spoutJobs pp lp.spouts) (newV.zip newE)) ∧
    (∀ g g', create_bolts parse tid tref pp lp g = (g', none) →
      ∃ newV newE, g'.vertices = g.vertices ++ newV ∧
        g'.edges = g.edges ++ newE ∧ newV.length = newE.length ∧
        List.Forall₂ (BoltInstanceOk parse tid tref pp g')
          (boltJobs pp lp.bolts) (newV.zip newE)) :=
  ⟨fun g g' h => spoutOuter_success parse tid tref pp lp.spouts g g' h,
   fun g g' h => boltOuter_success parse tid tref pp lp.bolts g g' h⟩

/-- Witness for C4 amended: running the spout step of the scenario on the
store produced by the stream-manager step (which holds container 1). -/
theorem C4_instance_vertices_witness :
    ∃ newV newE,
      (create_spouts sampleParse "topo" "ref" samplePP sampleLP
          (create_stream_managers "topo" "ref" samplePP GraphDB.empty).1).1.vertices
        = (create_stream_managers "topo" "ref" samplePP
            GraphDB.empty).1.vertices ++ newV ∧
      (create_spouts sampleParse "topo" "ref" samplePP sampleLP
          (create_stream_managers "topo" "ref" samplePP GraphDB.empty).1).1.edges
        = (create_stream_managers "topo" "ref" samplePP
            GraphDB.empty).1.edges ++ newE ∧
      newV.length = newE.length ∧
      List.Forall₂ (SpoutInstanceOk sampleParse "topo" "ref" samplePP
          (create_spouts sampleParse "topo" "ref" samplePP sampleLP
            (create_stream_managers "topo" "ref" samplePP GraphDB.empty).1).1)
        (spoutJobs samplePP sampleLP.spouts) (newV.zip newE) :=
  (C4_instance_vertices sampleParse "topo" "ref" samplePP sampleLP).1
    (create_stream_managers "topo" "ref" samplePP GraphDB.empty).1
    (create_spouts sampleParse "topo" "ref" samplePP sampleLP
      (create_stream_managers "topo" "ref" samplePP GraphDB.empty).1).1
    (by decide)
/-- C5 as stated is false in one respect: on a malformed broker id a vertex
IS created for that broker entry — the `stream_manager` vertex is added
before the id is decoded (lines 47–58), only the `container` vertex is
not.  Here the single broker id `stmgr` has no separator: the step fails
(with IndexError, not a ParseError) after having created one vertex. -/
theorem C5_counterexample :
    (create_stream_managers "topo" "ref"
        (⟨[⟨"stmgr", "h", 1, 2⟩], [], [], []⟩ : PhysicalPlan)
        GraphDB.empty).2 = some .indexError ∧
    (create_stream_managers "topo" "ref"
        (⟨[⟨"stmgr", "h", 1, 2⟩], [], [], []⟩ : PhysicalPlan)
        GraphDB.empty).1.vertices.length = 1 := by
  exact ⟨by decide, by decide⟩

/-- C5 amended: decoding `"stmgr-3"` yields container index 3; the
container index is the numeric segment after the first `-` separator; a
malformed broker id makes the decode fail (IndexError when there is no
separator, ValueError when the segment after it is not numeric — the
Python exceptions standing where the spec says ParseError), the step stops
with that error, and no container vertex is created for that broker entry;
the entry's stream_manager vertex, created before the decode, remains. -/
theorem C5_broker_id_decode :
    stmgrContainerId "stmgr-3" = .ok 3 ∧
    (∀ s c, stmgrContainerId s = .ok c → ∃ seg,
      (pySplitDash s).get? 1 = some seg ∧ pyInt seg = some c) ∧
    (∀ s, (pySplitDash s).get? 1 = none →
      stmgrContainerId s = .error .indexError) ∧
    (∀ s seg, (pySplitDash s).get? 1 = some seg → pyInt seg = none →
      stmgrContainerId s = .error .valueError) ∧
    (∀ (tid tref : String) (sm : StMgrData) (rest : List StMgrData)
      (g : GraphDB) (e : BuildError), stmgrContainerId sm.id = .error e →
      createStreamManagersLoop tid tref g (sm :: rest) =
        ((g.addV "stream_manager" (stmgrProps tid tref sm)).1, some e) ∧
      vertexCount (createStreamManagersLoop tid tref g (sm :: rest)).1
          "container" tid tref = vertexCount g "container" tid tref ∧
      vertexCount (createStreamManagersLoop tid tref g (sm :: rest)).1
          "stream_manager" tid tref
        = vertexCount g "stream_manager" tid tref + 1) := by
  refine ⟨rfl, ?_, ?_, ?_, ?_⟩
  · intro s c
    cases hg : (pySplitDash s).get? 1 with
    | none =>
      intro h
      rw [show stmgrContainerId s = .error .indexError from by
        simp only [stmgrContainerId, hg]] at h
      exact absurd h (by simp)
    | some seg =>
      cases hp : pyInt seg with
      | none =>
        intro h
        rw [show stmgrContainerId s = .error .valueError from by
          simp only [stmgrContainerId, hg, hp]] at h
        exact absurd h (by simp)
      | some n =>
        intro h
        rw [show stmgrContainerId s = .ok n from by
          simp only [stmgrContainerId, hg, hp]] at h
        simp only [Except.ok.injEq] at h
        exact ⟨seg, rfl, by rw [hp, h]⟩
  · intro s h
    simp only [stmgrContainerId, h]
  · intro s seg h h'
    simp only [stmgrContainerId, h, h']
  · intro tid tref sm rest g e h
    have heq := smLoop_cons_err tid tref g sm rest h
    refine ⟨heq, ?_, ?_⟩
    · rw [heq]
      exact vertexCount_addV_ne (by decide) g _ tid tref
    · rw [heq]
      exact vertexCount_addV_self g (taggedV_stmgr tid tref g.nextId sm)

/-- Witness for C5: the no-separator id `stmgr` and the non-numeric id
`stmgr-x` fail with the two error kinds, and on a one-entry plan with the
bad id the loop stops having created exactly the stream_manager vertex. -/
theorem C5_broker_id_decode_witness :
    stmgrContainerId "stmgr" = .error .indexError ∧
    stmgrContainerId "stmgr-x" = .error .valueError ∧
    createStreamManagersLoop "topo" "ref" GraphDB.empty
        [⟨"stmgr", "h", 1, 2⟩] =
      (((GraphDB.empty : GraphDB).addV "stream_manager"
          (stmgrProps "topo" "ref" ⟨"stmgr", "h", 1, 2⟩)).1,
        some .indexError) :=
  ⟨C5_broker_id_decode.2.2.1 "stmgr" (by decide),
   C5_broker_id_decode.2.2.2.1 "stmgr-x" "x" (by decide) (by decide),
   (C5_broker_id_decode.2.2.2.2 "topo" "ref" ⟨"stmgr", "h", 1, 2⟩ []
      GraphDB.empty .indexError rfl).1⟩

/-- C6: every error raised during a build surfaces to the caller of
`build_topology_graph` unmodified — the build returns exactly the failing
step's error with the graph as mutated so far, no step catches or retries;
the spout (resp. bolt) instance step fails with the spec's LookupError when
no container vertex matches the decoded container index; and the result
graph always extends the input graph, so work of earlier steps and earlier
iterations persists across a failure. -/
theorem C6_error_propagation (parse : ParseFn) (tid tref : String)
    (lp : LogicalPlan) (pp : PhysicalPlan) (g : GraphDB) :
    (∀ g1 e, create_stream_managers tid tref pp g = (g1, some e) →
      build_topology_graph parse tid tref lp pp g = (g1, some e)) ∧
    (∀ g1 g2 e, create_stream_managers tid tref pp g = (g1, none) →
      create_spouts parse tid tref pp lp g1 = (g2, some e) →
      build_topology_graph parse tid tref lp pp g = (g2, some e)) ∧
    (∀ g1 g2 g3 e, create_stream_managers tid tref pp g = (g1, none) →
      create_spouts parse tid tref pp lp g1 = (g2, none) →
      create_bolts parse tid tref pp lp g2 = (g3, some e) →
      build_topology_graph parse tid tref lp pp g = (g3, some e)) ∧
    (∀ g1 g2 g3, create_stream_managers tid tref pp g = (g1, none) →
      create_spouts parse tid tref pp lp g1 = (g2, none) →
      create_bolts parse tid tref pp lp g2 = (g3, none) →
      build_topology_graph parse tid tref lp pp g =
        (create_logical_connections tid tref lp g3, none)) ∧
    (∀ (sn tok : String) (sd : SpoutData) (rest : List String)
      (inst : ParsedInstance) (idata : InstanceData) (g0 : GraphDB),
      parse tok = .ok inst → pp.instances.lookup tok = some idata →
      (containerQuery tid tref inst.container
        (g0.addV "spout" (spoutProps tid tref sn inst idata.stmgrId sd)).1).head?
          = none →
      createSpoutInstancesLoop parse tid tref sn sd pp g0 (tok :: rest) =
        ((g0.addV "spout" (spoutProps tid tref sn inst idata.stmgrId sd)).1,
          some .lookupError)) ∧
    (∀ (bn tok : String) (rest : List String) (inst : ParsedInstance)
      (idata : InstanceData) (g0 : GraphDB),
      parse tok = .ok inst → pp.instances.lookup tok = some idata →
      (containerQuery tid tref inst.container
        (g0.addV "bolt" (boltProps tid tref bn inst idata.stmgrId)).1).head?
          = none →
      createBoltInstancesLoop parse tid tref bn pp g0 (tok :: rest) =
        ((g0.addV "bolt" (boltProps tid tref bn inst idata.stmgrId)).1,
          some .lookupError)) ∧
    (build_topology_graph parse tid tref lp pp g).1.GrowsFrom g := by
  refine ⟨?_, ?_, ?_, ?_, ?_, ?_, build_grows parse tid tref lp pp g⟩
  · intro g1 e h
    exact build_fail_sm parse tid tref lp pp g h
  · intro g1 g2 e h h'
    exact build_fail_spouts parse tid tref lp pp g h h'
  · intro g1 g2 g3 e h h' h''
    exact build_fail_bolts parse tid tref lp pp g h h' h''
  · intro g1 g2 g3 h h' h''
    exact build_all_ok parse tid tref lp pp g h h' h''
  · intro sn tok sd rest inst idata g0 hp hi hc
    exact spoutInner_cons_lookuperr parse tid tref sn sd pp g0 tok rest hp hi hc
  · intro bn tok rest inst idata g0 hp hi hc
    exact boltInner_cons_lookuperr parse tid tref bn pp g0 tok rest hp hi hc

/-- Witness for C6: a physical plan with no broker entry but one spout
instance: the stream-manager step succeeds with an empty store, the spout
step fails with LookupError (no container vertex exists), and the build
surfaces exactly that error together with the partially built graph. -/
theorem C6_error_propagation_witness :
    build_topology_graph sampleParse "topo" "ref"
        (⟨[("S1", ⟨"ty", "sr"⟩)], []⟩ : LogicalPlan)
        (⟨[], [("S1", ["c1s1"])], [], [("c1s1", ⟨"stmgr-1"⟩)]⟩ : PhysicalPlan)
        GraphDB.empty =
      ((create_spouts sampleParse "topo" "ref"
          (⟨[], [("S1", ["c1s1"])], [], [("c1s1", ⟨"stmgr-1"⟩)]⟩ :
            PhysicalPlan)
          (⟨[("S1", ⟨"ty", "sr"⟩)], []⟩ : LogicalPlan) GraphDB.empty).1,
        some .lookupError) :=
  (C6_error_propagation sampleParse "topo" "ref"
      (⟨[("S1", ⟨"ty", "sr"⟩)], []⟩ : LogicalPlan)
      (⟨[], [("S1", ["c1s1"])], [], [("c1s1", ⟨"stmgr-1"⟩)]⟩ : PhysicalPlan)
      GraphDB.empty).2.1 GraphDB.empty
    (create_spouts sampleParse "topo" "ref"
      (⟨[], [("S1", ["c1s1"])], [], [("c1s1", ⟨"stmgr-1"⟩)]⟩ : PhysicalPlan)
      (⟨[("S1", ⟨"ty", "sr"⟩)], []⟩ : LogicalPlan) GraphDB.empty).1
    .lookupError (by decide) (by decide)

/-- C7: the build is append-only — a successful run adds its full
complement of B tagged stream_manager and B tagged container vertices to
whatever the store already holds, without looking for pre-existing ones —
so two successful runs with the same arguments over an initially empty
store leave 2B stream_manager and 2B container vertices: the operation is
not idempotent. -/
theorem C7_not_idempotent (parse : ParseFn) (tid tref : String)
    (lp : LogicalPlan) (pp : PhysicalPlan) :
    (∀ g g', build_topology_graph parse tid tref lp pp g = (g', none) →
      vertexCount g' "stream_manager" tid tref =
        vertexCount g "stream_manager" tid tref + pp.stmgrs.length ∧
      vertexCount g' "container" tid tref =
        vertexCount g "container" tid tref + pp.stmgrs.length) ∧
    (∀ g1 g2,
      build_topology_graph parse tid tref lp pp GraphDB.empty = (g1, none) →
      build_topology_graph parse tid tref lp pp g1 = (g2, none) →
      vertexCount g2 "stream_manager" tid tref = 2 * pp.stmgrs.length ∧
      vertexCount g2 "container" tid tref = 2 * pp.stmgrs.length) := by
  refine ⟨fun g g' h => build_count parse tid tref lp pp g g' h, ?_⟩
  intro g1 g2 h1 h2
  obtain ⟨a1, b1⟩ := build_count parse tid tref lp pp GraphDB.empty g1 h1
  obtain ⟨a2, b2⟩ := build_count parse tid tref lp pp g1 g2 h2
  have hz1 : vertexCount GraphDB.empty "stream_manager" tid tref = 0 := rfl
  have hz2 : vertexCount GraphDB.empty "container" tid tref = 0 := rfl
  constructor
  · omega
  · omega

/-- Witness for C7: a one-broker plan built twice from the empty store
leaves 2×1 stream_manager and 2×1 container vertices. -/
theorem C7_not_idempotent_witness :
    vertexCount (build_topology_graph sampleParse "topo" "ref"
        (⟨[], []⟩ : LogicalPlan)
        (⟨[⟨"stmgr-1", "h", 0, 0⟩], [], [], []⟩ : PhysicalPlan)
        (build_topology_graph sampleParse "topo" "ref"
          (⟨[], []⟩ : LogicalPlan)
          (⟨[⟨"stmgr-1", "h", 0, 0⟩], [], [], []⟩ : PhysicalPlan)
          GraphDB.empty).1).1 "stream_manager" "topo" "ref" =
      2 * (⟨[⟨"stmgr-1", "h", 0, 0⟩], [], [], []⟩ : PhysicalPlan).stmgrs.length ∧
    vertexCount (build_topology_graph sampleParse "topo" "ref"
        (⟨[], []⟩ : LogicalPlan)
        (⟨[⟨"stmgr-1", "h", 0, 0⟩], [], [], []⟩ : PhysicalPlan)
        (build_topology_graph sampleParse "topo" "ref"
          (⟨[], []⟩ : LogicalPlan)
          (⟨[⟨"stmgr-1", "h", 0, 0⟩], [], [], []⟩ : PhysicalPlan)
          GraphDB.empty).1).1 "container" "topo" "ref" =
      2 * (⟨[⟨"stmgr-1", "h", 0, 0⟩], [], [], []⟩ : PhysicalPlan).stmgrs.length :=
  (C7_not_idempotent sampleParse "topo" "ref" (⟨[], []⟩ : LogicalPlan)
      (⟨[⟨"stmgr-1", "h", 0, 0⟩], [], [], []⟩ : PhysicalPlan)).2
    (build_topology_graph sampleParse "topo" "ref" (⟨[], []⟩ : LogicalPlan)
      (⟨[⟨"stmgr-1", "h", 0, 0⟩], [], [], []⟩ : PhysicalPlan)
      GraphDB.empty).1
    (build_topology_graph sampleParse "topo" "ref" (⟨[], []⟩ : LogicalPlan)
      (⟨[⟨"stmgr-1", "h", 0, 0⟩], [], [], []⟩ : PhysicalPlan)
      (build_topology_graph sampleParse "topo" "ref" (⟨[], []⟩ : LogicalPlan)
        (⟨[⟨"stmgr-1", "h", 0, 0⟩], [], [], []⟩ : PhysicalPlan)
        GraphDB.empty).1).1
    (by decide) (by decide)

/-- C8: with the same topologyId but different snapshotRef values, every
vertex created by the first build carries its own snapshotRef, and a query
filtering on the first snapshotRef never returns a vertex created by the
second build. -/
theorem C8_snapshot_isolation (parse parseB : ParseFn)
    (tid refA refB : String) (lpA lpB : LogicalPlan) (ppA ppB : PhysicalPlan)
    (g0 g1 g2 : GraphDB) (e1 e2 : Option BuildError)
    (hA : build_topology_graph parse tid refA lpA ppA g0 = (g1, e1))
    (hB : build_topology_graph parseB tid refB lpB ppB g1 = (g2, e2))
    (hne : refA ≠ refB) :
    (∀ v ∈ g1.vertices, v ∉ g0.vertices →
      v.props.lookup "topology_id" = some (.s tid) ∧
      v.props.lookup "topology_ref" = some (.s refA)) ∧
    (∀ v ∈ g2.vertices,
      v.props.lookup "topology_ref" = some (.s refA) → v ∈ g1.vertices) := by
  constructor
  · intro v hv hnot
    rcases build_new_vertices parse tid refA lpA ppA g0 v
      (by rw [hA]; exact hv) with h | h
    · exact absurd h hnot
    · exact h
  · intro v hv href
    rcases build_new_vertices parseB tid refB lpB ppB g1 v
      (by rw [hB]; exact hv) with h | h
    · exact h
    · exfalso
      have heq := href.symm.trans h.2
      simp only [Option.some.injEq, PValue.s.injEq] at heq
      exact hne heq

/-- Witness for C8: the one-broker plan built under ref `r1`, then again
under ref `r2`; the `r1`-tagged stream manager created by the first build
is, by the isolation property, an element of the first build's result. -/
theorem C8_snapshot_isolation_witness :
    (⟨0, "stream_manager",
        stmgrProps "topo" "r1" ⟨"stmgr-1", "h", 0, 0⟩⟩ : GVertex) ∈
      (build_topology_graph sampleParse "topo" "r1" (⟨[], []⟩ : LogicalPlan)
        (⟨[⟨"stmgr-1", "h", 0, 0⟩], [], [], []⟩ : PhysicalPlan)
        GraphDB.empty).1.vertices :=
  (C8_snapshot_isolation sampleParse sampleParse "topo" "r1" "r2"
      (⟨[], []⟩ : LogicalPlan) (⟨[], []⟩ : LogicalPlan)
      (⟨[⟨"stmgr-1", "h", 0, 0⟩], [], [], []⟩ : PhysicalPlan)
      (⟨[⟨"stmgr-1", "h", 0, 0⟩], [], [], []⟩ : PhysicalPlan)
      GraphDB.empty
      (build_topology_graph sampleParse "topo" "r1" (⟨[], []⟩ : LogicalPlan)
        (⟨[⟨"stmgr-1", "h", 0, 0⟩], [], [], []⟩ : PhysicalPlan)
        GraphDB.empty).1
      (build_topology_graph sampleParse "topo" "r2" (⟨[], []⟩ : LogicalPlan)
        (⟨[⟨"stmgr-1", "h", 0, 0⟩], [], [], []⟩ : PhysicalPlan)
        (build_topology_graph sampleParse "topo" "r1" (⟨[], []⟩ : LogicalPlan)
          (⟨[⟨"stmgr-1", "h", 0, 0⟩], [], [], []⟩ : PhysicalPlan)
          GraphDB.empty).1).1
      (build_topology_graph sampleParse "topo" "r1" (⟨[], []⟩ : LogicalPlan)
        (⟨[⟨"stmgr-1", "h", 0, 0⟩], [], [], []⟩ : PhysicalPlan)
        GraphDB.empty).2
      (build_topology_graph sampleParse "topo" "r2" (⟨[], []⟩ : LogicalPlan)
        (⟨[⟨"stmgr-1", "h", 0, 0⟩], [], [], []⟩ : PhysicalPlan)
        (build_topology_graph sampleParse "topo" "r1" (⟨[], []⟩ : LogicalPlan)
          (⟨[⟨"stmgr-1", "h", 0, 0⟩], [], [], []⟩ : PhysicalPlan)
          GraphDB.empty).1).2
      rfl rfl (by decide)).2
    ⟨0, "stream_manager", stmgrProps "topo" "r1" ⟨"stmgr-1", "h", 0, 0⟩⟩
    (by decide) (by decide)

/-- C9: `_create_physical_connections` only reads (its loop body is two
unimplemented TODOs) and returns the store unchanged, and
`build_topology_graph` never invokes it, so a build from an empty store
contains zero `physically_connected` edges. -/
theorem C9_no_physical_edges (parse : ParseFn) (tid tref : String)
    (lp : LogicalPlan) (pp : PhysicalPlan) :
    (∀ (tid' tref' : String) (pp' : PhysicalPlan) (lp' : LogicalPlan)
      (g : GraphDB), create_physical_connections tid' tref' pp' lp' g = g) ∧
    ((build_topology_graph parse tid tref lp pp
        GraphDB.empty).1.edges.filter
      (fun e => e.label == "physically_connected")) = [] := by
  constructor
  · intro tid' tref' pp' lp' g
    rfl
  · rw [List.filter_eq_nil_iff]
    intro e he
    rcases build_new_edges parse tid tref lp pp GraphDB.empty e he with h | h
    · exact absurd h (List.not_mem_nil e)
    · rcases h with ⟨hl, -⟩ | ⟨hl, -⟩ <;> simp [hl]

/-- C10: instance iteration is driven by the logical plan: a logical
component missing from the physical plan's component map, or an instance
token missing from the instance map, stops the step with a KeyError before
any vertex is created for that component or instance, and the build
surfaces that KeyError. -/
theorem C10_key_errors (parse : ParseFn) (tid tref : String)
    (pp : PhysicalPlan) :
    (∀ (sn : String) (sd : SpoutData) (rest : List (String × SpoutData))
      (g : GraphDB), pp.spouts.lookup sn = none →
      createSpoutsLoop parse tid tref pp g ((sn, sd) :: rest) =
        (g, some (.keyError sn))) ∧
    (∀ (bn : String) (bd : BoltData) (rest : List (String × BoltData))
      (g : GraphDB), pp.bolts.lookup bn = none →
      createBoltsLoop parse tid tref pp g ((bn, bd) :: rest) =
        (g, some (.keyError bn))) ∧
    (∀ (sn tok : String) (sd : SpoutData) (rest : List String)
      (inst : ParsedInstance) (g : GraphDB), parse tok = .ok inst →
      pp.instances.lookup tok = none →
      createSpoutInstancesLoop parse tid tref sn sd pp g (tok :: rest) =
        (g, some (.keyError tok))) ∧
    (∀ (bn tok : String) (rest : List String) (inst : ParsedInstance)
      (g : GraphDB), parse tok = .ok inst →
      pp.instances.lookup tok = none →
      createBoltInstancesLoop parse tid tref bn pp g (tok :: rest) =
        (g, some (.keyError tok))) ∧
    (∀ (lp : LogicalPlan) (sn : String) (sd : SpoutData)
      (rest : List (String × SpoutData)) (g g1 : GraphDB),
      lp.spouts = (sn, sd) :: rest → pp.spouts.lookup sn = none →
      create_stream_managers tid tref pp g = (g1, none) →
      build_topology_graph parse tid tref lp pp g =
        (g1, some (.keyError sn))) := by
  refine ⟨?_, ?_, ?_, ?_, ?_⟩
  · intro sn sd rest g h
    exact spoutOuter_cons_keyerr parse tid tref sn sd pp g rest h
  · intro bn bd rest g h
    exact boltOuter_cons_keyerr parse tid tref bn bd pp g rest h
  · intro sn tok sd rest inst g hp hi
    exact spoutInner_cons_keyerr parse tid tref sn sd pp g tok rest hp hi
  · intro bn tok rest inst g hp hi
    exact boltInner_cons_keyerr parse tid tref bn pp g tok rest hp hi
  · intro lp sn sd rest g g1 hlp hnone hsm
    apply build_fail_spouts parse tid tref lp pp g hsm
    have hdef : create_spouts parse tid tref pp lp g1 =
        createSpoutsLoop parse tid tref pp g1 lp.spouts := rfl
    rw [hdef, hlp]
    exact spoutOuter_cons_keyerr parse tid tref sn sd pp g1 rest hnone

/-- Witness for C10: the logical plan names spout component `S1` but the
physical plan's spout map is empty, so the build fails with KeyError `S1`
leaving only the stream-manager step's (here empty) work. -/
theorem C10_key_errors_witness :
    build_topology_graph sampleParse "topo" "ref"
        (⟨[("S1", ⟨"ty", "sr"⟩)], []⟩ : LogicalPlan)
        (⟨[], [], [], []⟩ : PhysicalPlan) GraphDB.empty =
      (GraphDB.empty, some (.keyError "S1")) :=
  (C10_key_errors sampleParse "topo" "ref"
      (⟨[], [], [], []⟩ : PhysicalPlan)).2.2.2.2
    (⟨[("S1", ⟨"ty", "sr"⟩)], []⟩ : LogicalPlan) "S1" ⟨"ty", "sr"⟩ []
    GraphDB.empty GraphDB.empty rfl (by decide) (by decide)
